import Mathlib

/-!
Verification of the runpod-worker-comfy job pipeline (`src/rp_handler.py`,
`src/s3.py`, `src/job.py`, `src/supabase.py`, `src/trigger.py`) against its
natural-language specification.  Python functions are shallowly embedded as
executable Lean definitions; external effects (HTTP posts, the filesystem,
the object store, the clock) are passed in as explicit function arguments,
and observable side effects needed by the statements (upload attempts,
trigger invocations) are returned as explicit logs.  Python exceptions are
modelled with `Except String`; `Option` marks a loop that is still running
when the supplied fuel runs out (the Python loop in question has no fuel
bound of its own, so `none` corresponds to "has not yet terminated").
-/

deriving instance DecidableEq for Except

namespace RWC

/-! ## Python string helpers -/

/-- Models Python `s.rstrip("/")`: remove every trailing `/`. -/
def rstripSlash (s : String) : String :=
  String.mk ((s.data.reverse.dropWhile (fun c => c = '/')).reverse)

/-- Models Python `s.split("/")[-1]` (the basename used for object keys).
`List.splitOn` on the character list agrees with Python `str.split` for a
one-character separator, and always returns a non-empty list. -/
def lastPathComponent (s : String) : String :=
  ((s.data.splitOn '/').map String.mk).getLastD ""

/-- Models Python `os.path.join` for two components on POSIX: an absolute
second component replaces the first, otherwise a `/` separator is inserted
unless the accumulated path is empty or already ends with `/`. -/
def osPathJoin2 (a b : String) : String :=
  if List.isPrefixOf ['/'] b.data then b
  else if a = "" || a.data.getLast? == some '/' then a ++ b
  else a ++ "/" ++ b

/-- Models the three-argument `os.path.join(root, subfolder, filename)`
used by `process_output_images`. -/
def osPathJoin3 (a b c : String) : String :=
  osPathJoin2 (osPathJoin2 a b) c

/-- Models `".".join(items.split(".")[:-1]) + ".txt"` from
`process_output_images` (line 439): the sidecar text path of a path. -/
def txtSidecarPath (p : String) : String :=
  String.intercalate "." (((p.data.splitOn '.').map String.mk).dropLast) ++ ".txt"

/-! ## Environment and module-level configuration (rp_handler.py lines 23-35)

The process environment is a partial map from variable names to strings,
exactly what `os.environ.get` exposes. -/

/-- Environment abstraction: `os.environ.get name` returning `Option String`. -/
abbrev Env : Type := String → Option String

/-- Models a Python value that is either an `int` or a `str` — the type of
`os.environ.get(name, default)` when the default is an `int` literal, as in
rp_handler.py lines 28 and 30. -/
inductive PyVal where
  | int (n : Int)
  | str (s : String)

deriving DecidableEq, Repr

/-- Models rp_handler.py line 24: the availability-probe interval is the
hardcoded literal `50`; it does not read the environment. -/
def COMFY_API_AVAILABLE_INTERVAL_MS : Nat := 50

/-- Models rp_handler.py line 26: the availability-probe maximum attempt
count is the hardcoded literal `500`; it does not read the environment. -/
def COMFY_API_AVAILABLE_MAX_RETRIES : Nat := 500

/-- Models rp_handler.py line 28:
`os.environ.get("COMFY_POLLING_INTERVAL_MS", 250)` — a `str` when the
variable is set, the `int` 250 otherwise. -/
def COMFY_POLLING_INTERVAL_MS (env : Env) : PyVal :=
  match env "COMFY_POLLING_INTERVAL_MS" with
  | some s => PyVal.str s
  | none => PyVal.int 250

/-- Models rp_handler.py line 30:
`os.environ.get("COMFY_POLLING_MAX_RETRIES", 5000)` — a `str` when the
variable is set, the `int` 5000 otherwise. -/
def COMFY_POLLING_MAX_RETRIES (env : Env) : PyVal :=
  match env "COMFY_POLLING_MAX_RETRIES" with
  | some s => PyVal.str s
  | none => PyVal.int 5000

/-- Models rp_handler.py line 35:
`os.environ.get("REFRESH_WORKER", "false").lower() == "true"`. -/
def REFRESH_WORKER (env : Env) : Bool :=
  String.mk (((env "REFRESH_WORKER").getD "false").data.map Char.toLower) = "true"

/-- Models the Python 3 comparison `retries < max_retries` where `retries`
is an `int` and `max_retries` is an `int` or a `str`: comparing `int` with
`str` raises `TypeError`. -/
def pyLtIntVal (n : Int) (v : PyVal) : Except String Bool :=
  match v with
  | PyVal.int m => Except.ok (decide (n < m))
  | PyVal.str _ => Except.error "TypeError: unsupported comparison between int and str"

/-- Models evaluation of `COMFY_POLLING_INTERVAL_MS / 1000` inside
`time.sleep`: dividing a `str` by an `int` raises `TypeError`; the numeric
result itself is irrelevant to the control flow. -/
def pySleepArgOk (v : PyVal) : Except String Unit :=
  match v with
  | PyVal.int _ => Except.ok ()
  | PyVal.str _ => Except.error "TypeError: unsupported operand types for division of str by int"

/-! ## The history probe and the completion poll loop (rp_handler.py 584-603)

A poll probe is one call to `get_history(prompt_id)`, projected onto the
fields the loop reads: whether `prompt_id in history`, and when present,
`history[prompt_id].get("status")`, `history[prompt_id].get("outputs")` and
the textual form of `history[prompt_id].get("output")` used in the
generation-error message. -/

/-- Dictionary of string keys and string values — an output descriptor as
returned by the engine (e.g. `{"filename": ..., "subfolder": ..., "type": ...}`). -/
abbrev SDict : Type := List (String × String)

/-- Models a value sitting in one output slot of one node: the code treats
a `list` of descriptors and a single `dict` descriptor specially and
ignores every other shape (rp_handler.py lines 425-431). -/
inductive SlotVal where
  | list (ds : List SDict)
  | dict (d : SDict)
  | other

deriving DecidableEq, Repr

/-- Outputs payload: mapping node id → (slot name → slot value), in
iteration order. -/
abbrev Outputs : Type := List (String × List (String × SlotVal))

/-- Result of one `get_history` probe, projected to what the loop reads. -/
inductive HistoryProbe where
  | absent
  | present (status : Option String) (outputs : Outputs) (outputRepr : String)

deriving DecidableEq, Repr

/-- Outcome of the completion poll loop.  Each outcome records the number
of `get_history` probes performed, the number of `time.sleep` calls
performed and the final value of the `retries` counter. -/
inductive PollOutcome where
  | genError (probes sleeps retries : Nat) (outputRepr : String)
  | success (probes sleeps retries : Nat) (outputs : Outputs)
  | timeout (probes sleeps retries : Nat)

deriving DecidableEq, Repr

/-- Number of probes performed by a terminated poll run. -/
def PollOutcome.probes : PollOutcome → Nat
  | PollOutcome.genError p _ _ _ => p
  | PollOutcome.success p _ _ _ => p
  | PollOutcome.timeout p _ _ => p

/-- Number of sleeps performed by a terminated poll run. -/
def PollOutcome.sleeps : PollOutcome → Nat
  | PollOutcome.genError _ s _ _ => s
  | PollOutcome.success _ s _ _ => s
  | PollOutcome.timeout _ s _ => s

/-- Final value of the `retries` counter of a terminated poll run. -/
def PollOutcome.retries : PollOutcome → Nat
  | PollOutcome.genError _ _ r _ => r
  | PollOutcome.success _ _ r _ => r
  | PollOutcome.timeout _ _ r => r

/-- Embedding of the completion poll loop, rp_handler.py lines 584-601, for
an integer-valued `COMFY_POLLING_MAX_RETRIES` (the default configuration).
Arguments `retries`, `i` (probes made so far) and `sleeps` thread the loop
state; `fuel` bounds the number of iterations only because the Python loop
does not terminate on its own when a record is forever present but pending
(`none` means the loop has not terminated within `fuel` iterations).  The
branch structure mirrors the source: a present record with status
`"error"` returns immediately; a present record with truthy `outputs`
breaks with success; a present pending record loops without sleeping and
without incrementing `retries`; an absent record sleeps and increments
`retries`; a `retries` counter at or above the maximum falls to the
`while`-`else` timeout return. -/
def pollLoop (probe : Nat → HistoryProbe) (maxRetries : Int) :
    Nat → Nat → Nat → Nat → Option PollOutcome
  | 0, _, _, _ => none
  | fuel + 1, retries, i, sleeps =>
    if (retries : Int) < maxRetries then
      match probe i with
      | HistoryProbe.present status outputs outputRepr =>
        if status = some "error" then
          some (PollOutcome.genError (i + 1) sleeps retries outputRepr)
        else if outputs ≠ [] then
          some (PollOutcome.success (i + 1) sleeps retries outputs)
        else
          pollLoop probe maxRetries fuel retries (i + 1) sleeps
      | HistoryProbe.absent =>
        pollLoop probe maxRetries fuel (retries + 1) (i + 1) (sleeps + 1)
    else
      some (PollOutcome.timeout i sleeps retries)

/-- Embedding of the same loop with the module-level configuration values
kept at their Python types (rp_handler.py lines 28/30 deliver a `str` when
the environment variable is set).  The loop body sits inside
`try: ... except Exception` (lines 585-603), so a `TypeError` from the
`retries < COMFY_POLLING_MAX_RETRIES` comparison or from
`COMFY_POLLING_INTERVAL_MS / 1000` is an `Except.error` here. -/
def pollLoopPy (probe : Nat → HistoryProbe) (maxRetries intervalMs : PyVal) :
    Nat → Nat → Nat → Nat → Option (Except String PollOutcome)
  | 0, _, _, _ => none
  | fuel + 1, retries, i, sleeps =>
    match pyLtIntVal (retries : Int) maxRetries with
    | Except.error e => some (Except.error e)
    | Except.ok false => some (Except.ok (PollOutcome.timeout i sleeps retries))
    | Except.ok true =>
      match probe i with
      | HistoryProbe.present status outputs outputRepr =>
        if status = some "error" then
          some (Except.ok (PollOutcome.genError (i + 1) sleeps retries outputRepr))
        else if outputs ≠ [] then
          some (Except.ok (PollOutcome.success (i + 1) sleeps retries outputs))
        else
          pollLoopPy probe maxRetries intervalMs fuel retries (i + 1) sleeps
      | HistoryProbe.absent =>
        match pySleepArgOk intervalMs with
        | Except.error e => some (Except.error e)
        | Except.ok _ =>
          pollLoopPy probe maxRetries intervalMs fuel (retries + 1) (i + 1) (sleeps + 1)

/-- Number of absent probes among probes `0, 1, ..., n-1`. -/
def absentCount (probe : Nat → HistoryProbe) (n : Nat) : Nat :=
  (List.range n).countP (fun j => probe j = HistoryProbe.absent)

/-- Number of absent probes among probes `i, i+1, ..., i+n-1`. -/
def absentBetween (probe : Nat → HistoryProbe) : Nat → Nat → Nat
  | _, 0 => 0
  | i, n + 1 =>
    (if probe i = HistoryProbe.absent then 1 else 0) + absentBetween probe (i + 1) n

/-- Sample outputs payload with a single image descriptor, used by the
concrete instances below. -/
def sampleOutputs : Outputs :=
  [("9", [("images", SlotVal.list
    [[("filename", "a.png"), ("type", "output"), ("subfolder", "")]])])]

/-- Environment that sets only `COMFY_POLLING_MAX_RETRIES`, to the string
`"3"`. -/
def envMaxRetries3 : Env :=
  fun k => if k = "COMFY_POLLING_MAX_RETRIES" then some "3" else none

/-- History sequence whose very first probe already reports outputs. -/
def probeImmediate : Nat → HistoryProbe :=
  fun _ => HistoryProbe.present none sampleOutputs "None"

/-! ## Inline image upload: `upload_images` (rp_handler.py 150-200)

The HTTP post to the engine's `/upload/image` endpoint is injected as a
function from the image name and decoded bytes to the response's
`(status_code, text)`.  Besides the Python return value, the embedding
returns the list of image names actually posted, so that "every item is
attempted" is stateable. -/

/-- Membership of a character in the base64 alphabet. -/
def isB64Char (c : Char) : Bool :=
  (('A' ≤ c) && (c ≤ 'Z')) || (('a' ≤ c) && (c ≤ 'z')) ||
    (('0' ≤ c) && (c ≤ '9')) || c = '+' || c = '/'

/-- Numeric value of a base64 alphabet character. -/
def b64CharVal (c : Char) : Nat :=
  if ('A' ≤ c) && (c ≤ 'Z') then c.toNat - 65
  else if ('a' ≤ c) && (c ≤ 'z') then c.toNat - 97 + 26
  else if ('0' ≤ c) && (c ≤ '9') then c.toNat - 48 + 52
  else if c = '+' then 62
  else 63

/-- Byte values of a list of base64 data characters: full groups of four
sextets give three bytes, a trailing pair or triple gives one or two. -/
def b64DecodeGroups : List Char → List Nat
  | a :: b :: c :: d :: rest =>
    let n := b64CharVal a * 262144 + b64CharVal b * 4096 + b64CharVal c * 64 + b64CharVal d
    n / 65536 :: (n / 256) % 256 :: n % 256 :: b64DecodeGroups rest
  | [a, b] => [b64CharVal a * 4 + b64CharVal b / 16]
  | [a, b, c] =>
    [b64CharVal a * 4 + b64CharVal b / 16,
     (b64CharVal b % 16) * 16 + b64CharVal c / 4]
  | _ => []

/-- Models `base64.b64decode` with its default `validate=False`, as called
on line 172: characters outside the base64 alphabet (other than padding)
are discarded; `binascii` then raises when the number of data characters
is one more than a multiple of four, or when the total length including
padding is not a multiple of four ("Incorrect padding"); otherwise the
data characters are decoded.  The raised `binascii.Error` is NOT caught
anywhere in `upload_images` or in `handler`. -/
def b64decode (s : String) : Except String (List Nat) :=
  let kept := s.data.filter (fun c => isB64Char c || c = '=')
  let data := kept.filter (fun c => isB64Char c)
  if data.length % 4 == 1 then
    Except.error "Invalid base64-encoded string"
  else if kept.length % 4 != 0 then
    Except.error "Incorrect padding"
  else
    Except.ok (b64DecodeGroups data)

/-- Input image: `{name, image}` with the content base64-encoded
(src/job.py `ComfyImageInput`). -/
structure ComfyImageInput where
  name : String
  image : String

deriving DecidableEq, Repr

/-- Input file URL: `{name, url}` (src/job.py `ComfyFileUrlInput`). -/
structure ComfyFileUrlInput where
  name : String
  url : String

deriving DecidableEq, Repr

/-- Result dictionary shape returned by `upload_images` and
`upload_files_from_url`: `{status, message, details}`. -/
structure UploadResult where
  status : String
  message : String
  details : List String

deriving DecidableEq, Repr

/-- A call of `upload_images` either returns a result dictionary or raises
an exception (from `base64.b64decode`) that propagates to the caller. -/
inductive UploadOutcome where
  | result (r : UploadResult)
  | exception (e : String)

deriving DecidableEq, Repr

/-- Loop of `upload_images` (rp_handler.py lines 169-200), threading the
`responses` and `upload_errors` accumulators and the list of names whose
HTTP post was actually attempted. -/
def uploadImagesLoop (post : String → List Nat → Nat × String) :
    List ComfyImageInput → List String → List String → List String →
      UploadOutcome × List String
  | [], responses, uploadErrors, attempted =>
    if uploadErrors ≠ [] then
      (UploadOutcome.result ⟨"error", "Some images failed to upload", uploadErrors⟩,
        attempted)
    else
      (UploadOutcome.result ⟨"success", "All images uploaded successfully", responses⟩,
        attempted)
  | img :: rest, responses, uploadErrors, attempted =>
    match b64decode img.image with
    | Except.error e => (UploadOutcome.exception e, attempted)
    | Except.ok blob =>
      let r := post img.name blob
      if r.1 ≠ 200 then
        uploadImagesLoop post rest responses
          (uploadErrors ++ ["Error uploading " ++ img.name ++ ": " ++ r.2])
          (attempted ++ [img.name])
      else
        uploadImagesLoop post rest
          (responses ++ ["Successfully uploaded " ++ img.name]) uploadErrors
          (attempted ++ [img.name])

/-- Embedding of `upload_images` (rp_handler.py 150-200).  A `None` or
empty list short-circuits with the no-op success result (line 161). -/
def upload_images (post : String → List Nat → Nat × String)
    (images : Option (List ComfyImageInput)) : UploadOutcome × List String :=
  match images with
  | none => (UploadOutcome.result ⟨"success", "No images to upload", []⟩, [])
  | some imgs =>
    if imgs = [] then
      (UploadOutcome.result ⟨"success", "No images to upload", []⟩, [])
    else
      uploadImagesLoop post imgs [] [] []

/-- Decoded bytes of an item known to decode (the `Except.ok` value of
`b64decode`). -/
def decodedBlob (i : ComfyImageInput) : List Nat :=
  match b64decode i.image with
  | Except.ok b => b
  | Except.error _ => []

/-- Whether an item's post fails (non-200 status), for an item that
decodes. -/
def itemFailed (post : String → List Nat → Nat × String) (i : ComfyImageInput) : Bool :=
  (post i.name (decodedBlob i)).1 != 200

/-- Per-item error message recorded at rp_handler.py line 183. -/
def itemErrMsg (post : String → List Nat → Nat × String) (i : ComfyImageInput) : String :=
  "Error uploading " ++ i.name ++ ": " ++ (post i.name (decodedBlob i)).2

/-- Per-item success message recorded at rp_handler.py line 185. -/
def itemSuccMsg (i : ComfyImageInput) : String :=
  "Successfully uploaded " ++ i.name

/-- Three-image batch for the C2 witness: the first item's post succeeds
and the other two fail. -/
def imgs3 : List ComfyImageInput :=
  [⟨"a.png", "QUJD"⟩, ⟨"b.png", "QUJE"⟩, ⟨"c.png", "QUJG"⟩]

/-- Post function for the C2 witness: 200 for `a.png`, 500 otherwise. -/
def post3 : String → List Nat → Nat × String :=
  fun n _ => if n = "a.png" then (200, "ok") else (500, "boom")

/-! ## Remote file-URL upload: `upload_files_from_url` (rp_handler.py 203-264)

The combined stream-fetch and multipart post for one item is injected as a
function from the file's name and url to either a response
`(status_code, text)` or a `requests.RequestException` message; the
`except requests.RequestException` at line 247 catches exactly the latter
per item and continues. -/

/-- Outcome of fetching one remote file and posting it to the engine. -/
inductive FetchOutcome where
  | resp (code : Nat) (text : String)
  | requestExc (e : String)

deriving DecidableEq, Repr

/-- Loop of `upload_files_from_url` (lines 219-250). -/
def uploadFilesFromUrlLoop (fetchPost : String → String → FetchOutcome) :
    List ComfyFileUrlInput → List String → List String → UploadResult
  | [], responses, uploadErrors =>
    if uploadErrors ≠ [] then
      ⟨"error", "Some files failed to upload", uploadErrors⟩
    else
      ⟨"success", "All files uploaded successfully", responses⟩
  | f :: rest, responses, uploadErrors =>
    match fetchPost f.name f.url with
    | FetchOutcome.requestExc e =>
      uploadFilesFromUrlLoop fetchPost rest responses
        (uploadErrors ++ ["Error downloading " ++ f.name ++ ": " ++ e])
    | FetchOutcome.resp code text =>
      if code ≠ 200 then
        uploadFilesFromUrlLoop fetchPost rest responses
          (uploadErrors ++
            ["Error uploading " ++ f.name ++ ": [" ++ toString code ++ "] " ++ text])
      else
        uploadFilesFromUrlLoop fetchPost rest
          (responses ++ ["Successfully uploaded " ++ f.name]) uploadErrors

/-- Embedding of `upload_files_from_url` (rp_handler.py 203-264). -/
def upload_files_from_url (fetchPost : String → String → FetchOutcome)
    (fileUrls : Option (List ComfyFileUrlInput)) : UploadResult :=
  match fileUrls with
  | none => ⟨"success", "No files to upload", []⟩
  | some fs =>
    if fs = [] then ⟨"success", "No files to upload", []⟩
    else uploadFilesFromUrlLoop fetchPost fs [] []

/-! ## Output collection (rp_handler.py 336-348 and 417-454)

The filesystem is injected as the predicate `fs : String → Bool` modelling
`os.path.exists`, and `base64_encode` of an existing file's content as
`fileB64 : String → String`. -/

/-- Output configuration (src/job.py `ComfyOutput`).  The source field
`key_prefix` is called `keyPfx` here. -/
structure ComfyOutput where
  type : String
  bucket : String
  endpoint_url : String
  keyPfx : String

deriving DecidableEq, Repr

/-- Result dictionary `{status, message}` where the message is either a
diagnostic string or the list of published strings. -/
inductive PyMsg where
  | str (s : String)
  | list (l : List String)

deriving DecidableEq, Repr

/-- Result dictionary of `process_output_images`. -/
structure JobResultDict where
  status : String
  message : PyMsg

deriving DecidableEq, Repr

/-- Key presence in a descriptor dictionary: Python `k in d`. -/
def hasKey (d : SDict) (k : String) : Bool :=
  (List.lookup k d).isSome

/-- Embedding of `is_an_output_file` (rp_handler.py 336-348) on dictionary
arguments: `"filename" in output and "type" in output and
output["type"] == "output"`.  (For a non-`dict` argument the source
returns `False`; in `process_output_images` that case is covered by the
`SlotVal` match, whose `other` branch contributes nothing.) -/
def is_an_output_file (d : SDict) : Bool :=
  hasKey d "filename" && hasKey d "type" && (List.lookup "type" d == some "output")

/-- Collection loop of rp_handler.py lines 420-431: iterate nodes, then
slots; extend with the filtered list for a `list` value, append a `dict`
value when it qualifies, ignore other shapes. -/
def collectOutputFiles (outputs : Outputs) : List SDict :=
  outputs.foldl (fun acc node =>
    node.2.foldl (fun acc2 slot =>
      match slot.2 with
      | SlotVal.list ds => acc2 ++ ds.filter is_an_output_file
      | SlotVal.dict d => if is_an_output_file d then acc2 ++ [d] else acc2
      | SlotVal.other => acc2) acc) []

/-- Path of one collected descriptor, rp_handler.py line 434:
`os.path.join(COMFY_OUTPUT_PATH, output["subfolder"], output["filename"])`;
a missing key raises `KeyError`. -/
def resolveOutputPath (root : String) (d : SDict) : Except String String :=
  match List.lookup "subfolder" d, List.lookup "filename" d with
  | some sub, some fn => Except.ok (osPathJoin3 root sub fn)
  | none, _ => Except.error "KeyError: subfolder"
  | _, none => Except.error "KeyError: filename"

/-- Sequential resolution of all collected descriptors (the list
comprehension of line 434). -/
def resolveAll (root : String) : List SDict → Except String (List String)
  | [] => Except.ok []
  | d :: rest =>
    match resolveOutputPath root d with
    | Except.error e => Except.error e
    | Except.ok p =>
      match resolveAll root rest with
      | Except.error e => Except.error e
      | Except.ok ps => Except.ok (p :: ps)

/-- Collection phase of `process_output_images` (rp_handler.py 420-443):
image paths of the qualifying descriptors, then the existing `.txt`
sidecars of those paths appended after all image paths. -/
def collectOutputPaths (root : String) (fs : String → Bool) (outputs : Outputs) :
    Except String (List String) :=
  match resolveAll root (collectOutputFiles outputs) with
  | Except.error e => Except.error e
  | Except.ok imgPaths =>
    let txts := imgPaths.foldl
      (fun acc p => if fs (txtSidecarPath p) then acc ++ [txtSidecarPath p] else acc) []
    Except.ok (imgPaths ++ txts)

/-- Embedding of `check_file_path_exist` (rp_handler.py 314-333). -/
def check_file_path_exist (fs : String → Bool) (paths : List String) :
    Bool × List String :=
  paths.foldl
    (fun acc path => if !(fs path) then (false, acc.2) else (acc.1, acc.2 ++ [path]))
    (true, [])

/-- Truthiness of `os.environ.get("BUCKET_ENDPOINT_URL", False)`
(rp_handler.py line 501): a set, non-empty string. -/
def bucketEndpointSet (env : Env) : Bool :=
  match env "BUCKET_ENDPOINT_URL" with
  | some s => s ≠ ""
  | none => false

namespace RpHandler

/-- Loop of rp_handler.py `upload_files_to_s3` (lines 375-385).  The
object-store client call is injected as
`uploadFile : file → bucket → key → Except String Unit`; besides the
Python return value the embedding returns the `(file, key)` pairs whose
upload was attempted. -/
def uploadS3Loop (uploadFile : String → String → String → Except String Unit)
    (job_id bucket endpoint2 : String) :
    List String → List String → List (String × String) →
      Except String (List String) × List (String × String)
  | [], bucket_urls, attempts => (Except.ok bucket_urls, attempts)
  | f :: rest, bucket_urls, attempts =>
    let file_name := lastPathComponent f
    let object_key := job_id ++ "/" ++ file_name
    match uploadFile f bucket object_key with
    | Except.error e => (Except.error e, attempts ++ [(f, object_key)])
    | Except.ok _ =>
      uploadS3Loop uploadFile job_id bucket endpoint2 rest
        (bucket_urls ++ [endpoint2 ++ "/" ++ bucket ++ "/" ++ object_key])
        (attempts ++ [(f, object_key)])

/-- Embedding of `upload_files_to_s3` in rp_handler.py (lines 351-385):
the endpoint is stripped of trailing slashes (line 363 reassigns it), and
each uploaded file contributes the URL
`{endpoint}/{bucket}/{job_id}/{file_name}`; an upload error re-raises,
aborting the loop. -/
def upload_files_to_s3 (uploadFile : String → String → String → Except String Unit)
    (job_id : String) (file_list : List String) (bucket_name endpoint_url : String) :
    Except String (List String) × List (String × String) :=
  uploadS3Loop uploadFile job_id bucket_name (rstripSlash endpoint_url) file_list [] []

end RpHandler

namespace S3

/-- Loop of s3.py `upload_files_to_s3` (lines 34-45): each file is first
opened (`with open(_file, 'rb')`), so a missing file raises
`FileNotFoundError`; each uploaded file contributes the URL
`{endpoint_url}/{object_key}` — no bucket segment, and the endpoint is
used verbatim (only the client construction strips slashes). -/
def uploadS3Loop (fsExists : String → Bool)
    (uploadFile : String → String → String → Except String Unit)
    (job_id bucket endpoint_url : String) :
    List String → List String → List (String × String) →
      Except String (List String) × List (String × String)
  | [], bucket_urls, attempts => (Except.ok bucket_urls, attempts)
  | f :: rest, bucket_urls, attempts =>
    if !(fsExists f) then
      (Except.error ("FileNotFoundError: " ++ f), attempts)
    else
      let file_name := lastPathComponent f
      let object_key := job_id ++ "/" ++ file_name
      match uploadFile f bucket object_key with
      | Except.error e => (Except.error e, attempts ++ [(f, object_key)])
      | Except.ok _ =>
        uploadS3Loop fsExists uploadFile job_id bucket endpoint_url rest
          (bucket_urls ++ [endpoint_url ++ "/" ++ object_key])
          (attempts ++ [(f, object_key)])

/-- Embedding of `upload_files_to_s3` in s3.py (lines 5-46). -/
def upload_files_to_s3 (fsExists : String → Bool)
    (uploadFile : String → String → String → Except String Unit)
    (job_id : String) (file_list : List String) (bucket_name endpoint_url : String) :
    Except String (List String) × List (String × String) :=
  uploadS3Loop fsExists uploadFile job_id bucket_name endpoint_url file_list [] []

end S3

/-- Publishing loop of the embedded branch (rp_handler.py 498-515): for
each path that exists, either the generic upload helper
(`rp_upload.upload_image`, injected as `rpUpload`) when the global bucket
endpoint is configured, or the base64-encoded file content; a path that no
longer exists is a terminal error result. -/
def processEmbeddedLoop (env : Env) (fs : String → Bool) (fileB64 : String → String)
    (rpUpload : String → String → String) (job_id : String) :
    List String → List String → JobResultDict
  | [], output_images => ⟨"success", PyMsg.list output_images⟩
  | p :: rest, output_images =>
    if fs p then
      let image := if bucketEndpointSet env then rpUpload job_id p else fileB64 p
      processEmbeddedLoop env fs fileB64 rpUpload job_id rest (output_images ++ [image])
    else
      ⟨"error",
        PyMsg.str ("the image does not exist in the specified output folder: " ++ p)⟩

/-- Embedding of `process_output_images` (rp_handler.py 388-519).  The
environment, the filesystem, `base64_encode`, the object-store client and
`rp_upload.upload_image` are injected; an `Except.error` models a Python
exception escaping the function (only the `KeyError` of line 434 can). -/
def process_output_images (env : Env) (fs : String → Bool)
    (fileB64 : String → String)
    (s3upload : String → String → String → Except String Unit)
    (rpUpload : String → String → String)
    (outputs : Outputs) (job_id : String) (job_output_def : Option ComfyOutput) :
    Except String JobResultDict :=
  let root := (env "COMFY_OUTPUT_PATH").getD "/comfyui/output"
  match collectOutputPaths root fs outputs with
  | Except.error e => Except.error e
  | Except.ok output_paths =>
    if output_paths = [] then
      Except.ok ⟨"error", PyMsg.str "No image generated"⟩
    else
      match job_output_def with
      | some odef =>
        if odef.type = "s3" then
          let checked := check_file_path_exist fs output_paths
          match env (odef.keyPfx ++ "AWS_ACCESS_KEY_ID"),
              env (odef.keyPfx ++ "AWS_SECRET_ACCESS_KEY") with
          | some _, some _ =>
            match (RpHandler.upload_files_to_s3 s3upload job_id checked.2
                odef.bucket odef.endpoint_url).1 with
            | Except.error e =>
              Except.ok ⟨"error", PyMsg.str ("Error uploading files to s3: " ++ e)⟩
            | Except.ok s3_urls => Except.ok ⟨"success", PyMsg.list s3_urls⟩
          | _, _ => Except.ok ⟨"error", PyMsg.str "AWS credentials are missing"⟩
        else
          processEmbeddedLoop env fs fileB64 rpUpload job_id output_paths [] |>
            Except.ok
      | none =>
        processEmbeddedLoop env fs fileB64 rpUpload job_id output_paths [] |>
          Except.ok

/-- Contribution of one slot value to the collected descriptor list. -/
def slotContribution (sv : SlotVal) : List SDict :=
  match sv with
  | SlotVal.list ds => ds.filter is_an_output_file
  | SlotVal.dict d => if is_an_output_file d then [d] else []
  | SlotVal.other => []

/-- Environment for the C6 witness: per-prefix credentials present. -/
def envWithCreds : Env :=
  fun k =>
    if k = "PFXAWS_ACCESS_KEY_ID" then some "ak"
    else if k = "PFXAWS_SECRET_ACCESS_KEY" then some "sk"
    else none

/-- Output configuration used by the C6/C7 witnesses (key prefix `PFX`). -/
def odefS3 : ComfyOutput := ⟨"s3", "bkt", "http://store/", "PFX"⟩

/-! ## Job model, trigger validation and the full handler (rp_handler.py 522-618) -/

/-- Python object model for raw payloads (JSON-decodable values). -/
inductive PyObj where
  | str (s : String)
  | int (n : Int)
  | bool (b : Bool)
  | none
  | list (l : List PyObj)
  | dict (d : List (String × PyObj))

/-- Supabase trigger configuration (src/supabase.py `SupabaseJobTrigger`).
The source field `key_prefix` is called `keyPfx` here; the base-class field
`multiple_result` is never read by any code path and is omitted. -/
structure SupabaseJobTrigger where
  service : String
  keyPfx : String
  table : String
  idField : String
  outputField : String
  statusField : Option String
  id : String
  status : Option String

deriving DecidableEq, Repr

/-- Typed worker job (rp_handler.py `ComfyWorkerJob`): the workflow is an
opaque payload, forwarded but never interpreted. -/
structure ComfyWorkerJob where
  id : String
  workflow : PyObj
  images : Option (List ComfyImageInput)
  file_urls : Option (List ComfyFileUrlInput)
  output : Option ComfyOutput
  trigger : Option SupabaseJobTrigger

/-- Embedding of `SupabaseTriggerHandler.validate` (src/supabase.py lines
36-42): raise `ValueError` when either per-prefix variable is not set. -/
def supabaseValidate (env : Env) (t : SupabaseJobTrigger) : Except String Unit :=
  if env (t.keyPfx ++ "SUPABASE_URL") = Option.none then
    Except.error (t.keyPfx ++ "SUPABASE_URL not set in environment")
  else if env (t.keyPfx ++ "SUPABASE_KEY") = Option.none then
    Except.error (t.keyPfx ++ "SUPABASE_KEY not set in environment")
  else
    Except.ok ()

/-- Embedding of `create_trigger_handler` (src/trigger.py): for the single
`SupabaseJobTrigger` variant of the union the isinstance test succeeds, the
handler is constructed and `validate` runs; the `ValueError` of an
unsupported service is unreachable for a job that passed input
validation. -/
def create_trigger_handler (env : Env) (t : SupabaseJobTrigger) : Except String Unit :=
  supabaseValidate env t

/-- Response of `queue_workflow` as read by `handler` (lines 570-577):
the submission id and the `node_errors` value, `some repr` when truthy. -/
structure QueueResp where
  promptId : String
  nodeErrors : Option String

deriving DecidableEq, Repr

/-- External collaborators of a `handler` run.  `queue` is the outcome of
`queue_workflow(job.workflow)` for this job (an `Except.error` models any
exception reaching the `except` of line 579). -/
structure Ext where
  env : Env
  checkServerOk : Bool
  postImage : String → List Nat → Nat × String
  fetchPost : String → String → FetchOutcome
  queue : Except String QueueResp
  probe : Nat → HistoryProbe
  fs : String → Bool
  fileB64 : String → String
  s3upload : String → String → String → Except String Unit
  rpUpload : String → String → String

/-- Return value of the pipeline up to line 608 (before the trigger
block): an `{"error": msg}` dictionary, a passthrough upload-result
dictionary, or the images result that will be merged with the
`refresh_worker` flag. -/
inductive CoreRet where
  | errField (msg : String)
  | batch (r : UploadResult)
  | final (ir : JobResultDict)

deriving DecidableEq, Repr

/-- Pipeline stages after trigger-handler construction (rp_handler.py
lines 548-606): availability probe (result computed and ignored), inline
image upload (whose base64 exception propagates), file-URL upload,
workflow submission, completion poll and output processing. -/
def handlerAfterTrigger (ext : Ext) (job : ComfyWorkerJob) (fuel : Nat) :
    Option (Except String CoreRet) :=
  let _availability := ext.checkServerOk
  match upload_images ext.postImage job.images with
  | (UploadOutcome.exception e, _) => some (Except.error e)
  | (UploadOutcome.result ur, _) =>
    if ur.status = "error" then some (Except.ok (CoreRet.batch ur))
    else
      let fr := upload_files_from_url ext.fetchPost job.file_urls
      if fr.status = "error" then some (Except.ok (CoreRet.batch fr))
      else
        match ext.queue with
        | Except.error e =>
          some (Except.ok (CoreRet.errField ("Error queuing workflow: " ++ e)))
        | Except.ok q =>
          match q.nodeErrors with
          | some rep =>
            some (Except.ok (CoreRet.errField ("Error found when queuing workflow: " ++ rep)))
          | Option.none =>
            match pollLoopPy ext.probe (COMFY_POLLING_MAX_RETRIES ext.env)
                (COMFY_POLLING_INTERVAL_MS ext.env) fuel 0 0 0 with
            | Option.none => Option.none
            | some (Except.error e) =>
              some (Except.ok (CoreRet.errField ("Error waiting for image generation: " ++ e)))
            | some (Except.ok (PollOutcome.timeout _ _ _)) =>
              some (Except.ok (CoreRet.errField "Max retries reached while waiting for image generation"))
            | some (Except.ok (PollOutcome.genError _ _ _ rep)) =>
              some (Except.ok (CoreRet.errField ("Error in generation: " ++ rep)))
            | some (Except.ok (PollOutcome.success _ _ _ outs)) =>
              match process_output_images ext.env ext.fs ext.fileB64 ext.s3upload
                  ext.rpUpload outs job.id job.output with
              | Except.error e => some (Except.error e)
              | Except.ok ir => some (Except.ok (CoreRet.final ir))

/-- Pipeline up to line 608: trigger-handler construction and validation
first (lines 541-546), then the remaining stages. -/
def handlerCore (ext : Ext) (job : ComfyWorkerJob) (fuel : Nat) :
    Option (Except String CoreRet) :=
  match job.trigger with
  | some t =>
    match create_trigger_handler ext.env t with
    | Except.error e =>
      some (Except.ok (CoreRet.errField ("Error creating trigger handler: " ++ e)))
    | Except.ok _ => handlerAfterTrigger ext job fuel
  | Option.none => handlerAfterTrigger ext job fuel

/-- Minimal JSON string escaping of `json.dumps` for the strings at hand. -/
def jsonEscape (s : String) : String :=
  String.mk (s.data.flatMap (fun c =>
    if c = '"' then ['\\', '"'] else if c = '\\' then ['\\', '\\'] else [c]))

/-- Models `json.dumps(images)` for a list of strings (line 614). -/
def jsonDumpsList (l : List String) : String :=
  "[" ++ String.intercalate ", " (l.map (fun s => "\"" ++ jsonEscape s ++ "\"")) ++ "]"

/-- Full return value of `handler`: an `{"error": msg}` dictionary, a
passthrough upload-result dictionary, or `{**images_result,
"refresh_worker": REFRESH_WORKER}`. -/
inductive HandlerRet where
  | errField (msg : String)
  | batch (r : UploadResult)
  | final (ir : JobResultDict) (refresh : Bool)

deriving DecidableEq, Repr

/-- Embedding of `handler` (rp_handler.py 522-618) for an
already-validated job, with the trigger backend's `handle` injected as
`th` (its argument is the serialized message list).  The second component
logs the arguments `handle` was invoked with.  The trigger block (lines
610-616) runs after `result` is built: it asserts the images result
message is a list (a string message raises `AssertionError`), serializes
it, and calls `handle`, whose exception would propagate; the handler
returns `result` unchanged by `handle`'s response. -/
def handler (ext : Ext) (th : String → Except String String)
    (job : ComfyWorkerJob) (fuel : Nat) :
    Option (Except String HandlerRet × List String) :=
  match handlerCore ext job fuel with
  | Option.none => Option.none
  | some (Except.error f) => some (Except.error f, [])
  | some (Except.ok (CoreRet.errField m)) => some (Except.ok (HandlerRet.errField m), [])
  | some (Except.ok (CoreRet.batch r)) => some (Except.ok (HandlerRet.batch r), [])
  | some (Except.ok (CoreRet.final ir)) =>
    match job.trigger with
    | Option.none => some (Except.ok (HandlerRet.final ir (REFRESH_WORKER ext.env)), [])
    | some _ =>
      match ir.message with
      | PyMsg.str _ =>
        some (Except.error
          "AssertionError: images output should be a list of URLs, or base64 encoded images", [])
      | PyMsg.list msgs =>
        let output := jsonDumpsList msgs
        match th output with
        | Except.error e => some (Except.error e, [output])
        | Except.ok _ =>
          some (Except.ok (HandlerRet.final ir (REFRESH_WORKER ext.env)), [output])

/-- Environment for the C8 witness: only the trigger's per-prefix
Supabase credentials are set. -/
def envSupabase : Env :=
  fun k =>
    if k = "PFXSUPABASE_URL" then some "http://supabase" else
    if k = "PFXSUPABASE_KEY" then some "key" else Option.none

/-- Trigger configuration for the C8 witness. -/
def trigger8 : SupabaseJobTrigger :=
  ⟨"supabase", "PFX", "jobs", "id", "output", some "status", "someid", some "completed"⟩

/-- Job for the C8 witness: no input assets, embedded output mode. -/
def job8 : ComfyWorkerJob :=
  ⟨"job-8", PyObj.dict [], Option.none, Option.none, Option.none, some trigger8⟩

/-- Externals for the C8 witness: queueing succeeds without node errors,
the first probe reports outputs, the image file exists and encodes to
`"QUJD"`. -/
def ext8 : Ext :=
  ⟨envSupabase, true, fun _ _ => (200, "ok"), fun _ _ => FetchOutcome.resp 200 "ok",
   Except.ok ⟨"p1", Option.none⟩, probeImmediate,
   fun p => p = "/comfyui/output/a.png", fun _ => "QUJD",
   fun _ _ _ => Except.ok (), fun _ _ => ""⟩

/-! ## Raw input validation (rp_handler.py 51-116 and 536-539)

`json.loads` is modelled by an executable recursive-descent parser over the
character list (sufficient for JSON objects, arrays, strings, integers,
booleans and null; a parse failure models `json.JSONDecodeError`). -/

/-- Whitespace skipping. -/
def skipWs : List Char → List Char
  | c :: rest =>
    if c = ' ' || c = '\n' || c = '\t' || c = '\r' then skipWs rest else c :: rest
  | [] => []

/-- String literal body: consumes up to the closing quote, handling the
`\"`, `\\`, `\n`, `\t` escapes. -/
def parseStringLit : List Char → List Char → Option (String × List Char)
  | [], _ => Option.none
  | c :: rest, acc =>
    if c = '"' then some (String.mk acc.reverse, rest)
    else if c = '\\' then
      match rest with
      | [] => Option.none
      | e :: rest2 =>
        let ec := if e = 'n' then '\n' else if e = 't' then '\t' else e
        parseStringLit rest2 (ec :: acc)
    else parseStringLit rest (c :: acc)

/-- Leading decimal digits. -/
def takeDigits : List Char → List Char × List Char
  | [] => ([], [])
  | c :: rest =>
    if c.isDigit then
      let r := takeDigits rest
      (c :: r.1, r.2)
    else ([], c :: rest)

/-- Digit list to number. -/
def digitsToNat (ds : List Char) : Nat :=
  ds.foldl (fun acc c => acc * 10 + (c.toNat - 48)) 0

mutual

/-- One JSON value. -/
def parseJson : Nat → List Char → Option (PyObj × List Char)
  | 0, _ => Option.none
  | fuel + 1, cs =>
    match skipWs cs with
    | [] => Option.none
    | c :: rest =>
      if c = 'n' then
        if List.isPrefixOf ['u', 'l', 'l'] rest then some (PyObj.none, rest.drop 3)
        else Option.none
      else if c = 't' then
        if List.isPrefixOf ['r', 'u', 'e'] rest then some (PyObj.bool true, rest.drop 3)
        else Option.none
      else if c = 'f' then
        if List.isPrefixOf ['a', 'l', 's', 'e'] rest then
          some (PyObj.bool false, rest.drop 4)
        else Option.none
      else if c = '"' then
        match parseStringLit rest [] with
        | some (s, rest2) => some (PyObj.str s, rest2)
        | Option.none => Option.none
      else if c = '[' then
        match skipWs rest with
        | ']' :: rest2 => some (PyObj.list [], rest2)
        | rest2 =>
          match parseArrayItems fuel rest2 with
          | some (items, rest3) => some (PyObj.list items, rest3)
          | Option.none => Option.none
      else if c = '{' then
        match skipWs rest with
        | '}' :: rest2 => some (PyObj.dict [], rest2)
        | rest2 =>
          match parseObjectItems fuel rest2 with
          | some (items, rest3) => some (PyObj.dict items, rest3)
          | Option.none => Option.none
      else if c = '-' then
        match takeDigits rest with
        | ([], _) => Option.none
        | (ds, rest2) => some (PyObj.int (-(digitsToNat ds : Int)), rest2)
      else if c.isDigit then
        match takeDigits (c :: rest) with
        | ([], _) => Option.none
        | (ds, rest2) => some (PyObj.int (digitsToNat ds : Int), rest2)
      else Option.none

/-- Comma-separated array items up to `]`. -/
def parseArrayItems : Nat → List Char → Option (List PyObj × List Char)
  | 0, _ => Option.none
  | fuel + 1, cs =>
    match parseJson fuel cs with
    | Option.none => Option.none
    | some (v, rest) =>
      match skipWs rest with
      | ']' :: rest2 => some ([v], rest2)
      | ',' :: rest2 =>
        match parseArrayItems fuel rest2 with
        | some (items, rest3) => some (v :: items, rest3)
        | Option.none => Option.none
      | _ => Option.none

/-- Comma-separated `"key": value` pairs up to a closing brace. -/
def parseObjectItems : Nat → List Char → Option (List (String × PyObj) × List Char)
  | 0, _ => Option.none
  | fuel + 1, cs =>
    match skipWs cs with
    | '"' :: rest =>
      match parseStringLit rest [] with
      | Option.none => Option.none
      | some (k, rest2) =>
        match skipWs rest2 with
        | ':' :: rest3 =>
          match parseJson fuel rest3 with
          | Option.none => Option.none
          | some (v, rest4) =>
            match skipWs rest4 with
            | '}' :: rest5 => some ([(k, v)], rest5)
            | ',' :: rest5 =>
              match parseObjectItems fuel rest5 with
              | some (items, rest6) => some ((k, v) :: items, rest6)
              | Option.none => Option.none
            | _ => Option.none
        | _ => Option.none
    | _ => Option.none

end

/-- Models `json.loads` on a string: parse one value, require only
whitespace after it; `Option.none` models `json.JSONDecodeError`. -/
def json_loads (s : String) : Option PyObj :=
  match parseJson (s.data.length + 1) s.data with
  | some (v, rest) => if skipWs rest = [] then some v else Option.none
  | Option.none => Option.none

/-- Dictionary lookup on a Python object payload. -/
def pyDictGet (d : List (String × PyObj)) (k : String) : Option PyObj :=
  List.lookup k d

/-- Models `obj.get(key)`: only dictionaries have `.get`; any other object
raises `AttributeError`. -/
def pyGet (o : PyObj) (k : String) : Except String (Option PyObj) :=
  match o with
  | PyObj.dict d => Except.ok (pyDictGet d k)
  | _ => Except.error "AttributeError: get"

/-- Substring occurrence on character lists (Python `in` on strings). -/
def listContainsSub (needle : List Char) : List Char → Bool
  | [] => List.isPrefixOf needle []
  | c :: rest => List.isPrefixOf needle (c :: rest) || listContainsSub needle rest

/-- Models `key in obj` for the shapes that can occur in a job payload:
key membership for a dictionary, substring test for a string, element
equality against string elements for a list; other types raise
`TypeError`. -/
def pyIn (k : String) (o : PyObj) : Except String Bool :=
  match o with
  | PyObj.dict d => Except.ok (pyDictGet d k).isSome
  | PyObj.str s => Except.ok (listContainsSub k.data s.data)
  | PyObj.list l =>
    Except.ok (l.any (fun x => match x with | PyObj.str s => s = k | _ => false))
  | _ => Except.error "TypeError: argument is not iterable"

/-- Models `all("k1" in it and "k2" in it for it in items)` with `all`'s
short-circuit on the first false element. -/
def allHaveTwoKeys (k1 k2 : String) : List PyObj → Except String Bool
  | [] => Except.ok true
  | o :: rest =>
    match pyIn k1 o with
    | Except.error e => Except.error e
    | Except.ok false => Except.ok false
    | Except.ok true =>
      match pyIn k2 o with
      | Except.error e => Except.error e
      | Except.ok false => Except.ok false
      | Except.ok true => allHaveTwoKeys k1 k2 rest

/-- Key presence in a payload dictionary. -/
def hasKeyP (d : List (String × PyObj)) (k : String) : Bool :=
  (pyDictGet d k).isSome

/-- Body of `validate_input` after the JSON-string normalization
(rp_handler.py lines 75-116): check `workflow` presence, the shapes of
`images`, `file_urls` and `output`, and return the validated tuple. -/
def validate_input_body (ji : PyObj) : Except String (Option PyObj × Option String) :=
  match pyGet ji "workflow" with
  | Except.error e => Except.error e
  | Except.ok Option.none =>
    Except.ok (Option.none, some "Missing \x27workflow\x27 parameter")
  | Except.ok (some workflow) =>
    match pyGet ji "images" with
    | Except.error e => Except.error e
    | Except.ok imagesOpt =>
      match (match imagesOpt with
             | some (PyObj.list l) => allHaveTwoKeys "name" "image" l
             | some _ => Except.ok false
             | Option.none => Except.ok true) with
      | Except.error e => Except.error e
      | Except.ok false =>
        Except.ok (Option.none,
          some "\x27images\x27 must be a list of objects with \x27name\x27 and \x27image\x27 keys")
      | Except.ok true =>
        match pyGet ji "file_urls" with
        | Except.error e => Except.error e
        | Except.ok fileUrlsOpt =>
          match (match fileUrlsOpt with
                 | some (PyObj.list l) => allHaveTwoKeys "name" "url" l
                 | some _ => Except.ok false
                 | Option.none => Except.ok true) with
          | Except.error e => Except.error e
          | Except.ok false =>
            Except.ok (Option.none,
              some "\x27file_urls\x27 must be a list of objects with \x27name\x27 and \x27url\x27 keys")
          | Except.ok true =>
            match pyGet ji "output" with
            | Except.error e => Except.error e
            | Except.ok outputOpt =>
              if (match outputOpt with
                  | Option.none => true
                  | some (PyObj.dict d) =>
                    hasKeyP d "type" && hasKeyP d "bucket" &&
                      hasKeyP d "endpoint_url" && hasKeyP d "key_prefix"
                  | some _ => false) then
                Except.ok (some (PyObj.dict
                  [("workflow", workflow),
                   ("images", imagesOpt.getD PyObj.none),
                   ("file_urls", fileUrlsOpt.getD PyObj.none),
                   ("output", outputOpt.getD PyObj.none)]), Option.none)
              else
                Except.ok (Option.none,
                  some "\x27output\x27 must be a dictionary with \x27type\x27, \x27bucket\x27, \x27endpoint_url\x27 and \x27key_prefix\x27 keys")

/-- Embedding of the deprecated `validate_input` (rp_handler.py 51-116):
`None` input and non-JSON strings return their error tuples; a JSON string
is parsed once and then validated like a structured payload.  An
`Except.error` models an exception escaping the function (`.get` on a
non-dictionary payload). -/
def validate_input (job_input : Option PyObj) :
    Except String (Option PyObj × Option String) :=
  match job_input with
  | Option.none => Except.ok (Option.none, some "Please provide input")
  | some (PyObj.str s) =>
    match json_loads s with
    | some j => validate_input_body j
    | Option.none => Except.ok (Option.none, some "Invalid JSON format in input")
  | some j => validate_input_body j

/-! ### Pydantic validation used by `handler` (rp_handler.py 536-539) -/

/-- Pydantic parse of one `ComfyImageInput` item. -/
def parseImageItem : PyObj → Except String ComfyImageInput
  | PyObj.dict d =>
    match pyDictGet d "name", pyDictGet d "image" with
    | some (PyObj.str n), some (PyObj.str i) => Except.ok ⟨n, i⟩
    | _, _ => Except.error "ValidationError: images"
  | _ => Except.error "ValidationError: images"

/-- Pydantic parse of one `ComfyFileUrlInput` item. -/
def parseFileUrlItem : PyObj → Except String ComfyFileUrlInput
  | PyObj.dict d =>
    match pyDictGet d "name", pyDictGet d "url" with
    | some (PyObj.str n), some (PyObj.str u) => Except.ok ⟨n, u⟩
    | _, _ => Except.error "ValidationError: file_urls"
  | _ => Except.error "ValidationError: file_urls"

/-- Sequential parse of a list of items. -/
def parseItemList {α : Type} (p : PyObj → Except String α) :
    List PyObj → Except String (List α)
  | [] => Except.ok []
  | o :: rest =>
    match p o with
    | Except.error e => Except.error e
    | Except.ok a =>
      match parseItemList p rest with
      | Except.error e => Except.error e
      | Except.ok as2 => Except.ok (a :: as2)

/-- Pydantic parse of the `ComfyOutput` field (`type` is the literal
`"s3"` or `"url"`; all four fields are required strings). -/
def parseOutput : PyObj → Except String ComfyOutput
  | PyObj.dict d =>
    match pyDictGet d "type", pyDictGet d "bucket",
        pyDictGet d "endpoint_url", pyDictGet d "key_prefix" with
    | some (PyObj.str t), some (PyObj.str b), some (PyObj.str e), some (PyObj.str kp) =>
      if t = "s3" || t = "url" then Except.ok ⟨t, b, e, kp⟩
      else Except.error "ValidationError: output.type"
    | _, _, _, _ => Except.error "ValidationError: output"
  | _ => Except.error "ValidationError: output"

/-- Optional string-or-null required field of the trigger model. -/
def parseOptStrField (v : Option PyObj) (name : String) :
    Except String (Option String) :=
  match v with
  | some (PyObj.str s) => Except.ok (some s)
  | some PyObj.none => Except.ok Option.none
  | _ => Except.error ("ValidationError: " ++ name)

/-- Pydantic parse of the discriminated `SupabaseJobTrigger` variant:
`service` must be the literal `"supabase"`, `key_prefix` a non-empty
string, `table`, `id_field`, `output_field` and `id` strings, and
`status_field` and `status` strings or null. -/
def parseTrigger : PyObj → Except String SupabaseJobTrigger
  | PyObj.dict d =>
    match pyDictGet d "service" with
    | some (PyObj.str "supabase") =>
      match pyDictGet d "key_prefix", pyDictGet d "table", pyDictGet d "id_field",
          pyDictGet d "output_field", pyDictGet d "id" with
      | some (PyObj.str kp), some (PyObj.str tb), some (PyObj.str idf),
          some (PyObj.str outf), some (PyObj.str idv) =>
        if kp = "" then Except.error "ValidationError: trigger.key_prefix"
        else
          match parseOptStrField (pyDictGet d "status_field") "trigger.status_field" with
          | Except.error e => Except.error e
          | Except.ok sf =>
            match pyDictGet d "status_field" with
            | Option.none => Except.error "ValidationError: trigger.status_field"
            | some _ =>
              match pyDictGet d "status" with
              | Option.none => Except.error "ValidationError: trigger.status"
              | some _ =>
                match parseOptStrField (pyDictGet d "status") "trigger.status" with
                | Except.error e => Except.error e
                | Except.ok st =>
                  Except.ok ⟨"supabase", kp, tb, idf, outf, sf, idv, st⟩
      | _, _, _, _, _ => Except.error "ValidationError: trigger"
    | _ => Except.error "ValidationError: trigger.service"
  | _ => Except.error "ValidationError: trigger"

/-- Pydantic construction `ComfyWorkerJob(id=..., **fields)`: required
`id` string and `workflow` mapping, optional `images`, `file_urls`,
`output` and `trigger` fields validated per their models, unknown fields
ignored. -/
def pydantic_parse_job (idv : PyObj) (fields : List (String × PyObj)) :
    Except String ComfyWorkerJob :=
  match idv with
  | PyObj.str ids =>
    match pyDictGet fields "workflow" with
    | some (PyObj.dict w) =>
      match (match pyDictGet fields "images" with
             | Option.none => Except.ok Option.none
             | some PyObj.none => Except.ok Option.none
             | some (PyObj.list l) => (parseItemList parseImageItem l).map some
             | some _ => Except.error "ValidationError: images") with
      | Except.error e => Except.error e
      | Except.ok images =>
        match (match pyDictGet fields "file_urls" with
               | Option.none => Except.ok Option.none
               | some PyObj.none => Except.ok Option.none
               | some (PyObj.list l) => (parseItemList parseFileUrlItem l).map some
               | some _ => Except.error "ValidationError: file_urls") with
        | Except.error e => Except.error e
        | Except.ok fileUrls =>
          match (match pyDictGet fields "output" with
                 | Option.none => Except.ok Option.none
                 | some PyObj.none => Except.ok Option.none
                 | some o => (parseOutput o).map some) with
          | Except.error e => Except.error e
          | Except.ok output =>
            match (match pyDictGet fields "trigger" with
                   | Option.none => Except.ok Option.none
                   | some PyObj.none => Except.ok Option.none
                   | some o => (parseTrigger o).map some) with
            | Except.error e => Except.error e
            | Except.ok trigger =>
              Except.ok ⟨ids, PyObj.dict w, images, fileUrls, output, trigger⟩
    | _ => Except.error "ValidationError: workflow"
  | _ => Except.error "ValidationError: id"

/-- Embedding of rp_handler.py lines 536-539:
`ComfyWorkerJob(id=job["id"], **job["input"])` inside
`try ... except ValidationError`.  The outer `Except` is an uncaught
exception (`KeyError` from the subscripts, or the `TypeError` raised by
`**` when `job["input"]` is not a mapping — a JSON-encoded string
included); the inner `Except` is the caught `ValidationError` that line
539 converts to an `{"error": ...}` result. -/
def handler_validate (jobPayload : PyObj) :
    Except String (Except String ComfyWorkerJob) :=
  match jobPayload with
  | PyObj.dict jd =>
    match pyDictGet jd "id" with
    | Option.none => Except.error "KeyError: id"
    | some idv =>
      match pyDictGet jd "input" with
      | Option.none => Except.error "KeyError: input"
      | some (PyObj.dict fields) => Except.ok (pydantic_parse_job idv fields)
      | some _ => Except.error "TypeError: argument after ** must be a mapping"
  | _ => Except.error "TypeError: job payload is not a mapping"

/-- Structured job-input payload used by the C9 statements: a minimal
valid job input. -/
def jobInputDict9 : List (String × PyObj) :=
  [("workflow", PyObj.dict [("3", PyObj.dict [])])]

/-- The same job input serialized as a JSON string. -/
def jsonStr9 : String := "\x7b\"workflow\": \x7b\"3\": \x7b\x7d\x7d\x7d"

/-- The `retries` counter and the sleep count both advance exactly on the
"record absent" branch: any terminated run of the poll loop has performed
one sleep and one `retries` increment per absent probe, and none for a
probe where the record was present. -/
lemma pollLoop_counts (probe : Nat → HistoryProbe) (maxR : Int) :
    ∀ fuel retries i sleeps o, pollLoop probe maxR fuel retries i sleeps = some o →
      ∃ n, o.probes = i + n ∧
        o.sleeps = sleeps + absentBetween probe i n ∧
        o.retries = retries + absentBetween probe i n := by
  intro fuel
  induction fuel with
  | zero =>
    intro retries i sleeps o h
    simp [pollLoop] at h
  | succ fuel ih =>
    intro retries i sleeps o h
    rw [pollLoop] at h
    by_cases hc : (retries : Int) < maxR
    · rw [if_pos hc] at h
      cases hp : probe i with
      | absent =>
        simp only [hp] at h
        obtain ⟨n, h1, h2, h3⟩ := ih (retries + 1) (i + 1) (sleeps + 1) o h
        refine ⟨n + 1, ?_, ?_, ?_⟩
        · omega
        · rw [h2]; simp [absentBetween, hp]; omega
        · rw [h3]; simp [absentBetween, hp]; omega
      | present st outs rep =>
        simp only [hp] at h
        by_cases hst : st = some "error"
        · rw [if_pos hst] at h
          refine ⟨1, ?_⟩
          cases h
          simp [PollOutcome.probes, PollOutcome.sleeps, PollOutcome.retries,
            absentBetween, hp]
        · rw [if_neg hst] at h
          by_cases ho : outs ≠ []
          · rw [if_pos ho] at h
            refine ⟨1, ?_⟩
            cases h
            simp [PollOutcome.probes, PollOutcome.sleeps, PollOutcome.retries,
              absentBetween, hp]
          · rw [if_neg ho] at h
            obtain ⟨n, h1, h2, h3⟩ := ih retries (i + 1) sleeps o h
            refine ⟨n + 1, ?_, ?_, ?_⟩
            · omega
            · rw [h2]; simp [absentBetween, hp]
            · rw [h3]; simp [absentBetween, hp]
    · rw [if_neg hc] at h
      refine ⟨0, ?_⟩
      cases h
      simp [PollOutcome.probes, PollOutcome.sleeps, PollOutcome.retries, absentBetween]

/-- A run that sees the record absent for `N` probes from an arbitrary
start state and then a present record with non-error status and non-empty
outputs succeeds after those `N + 1` probes, with `N` sleeps and `N`
`retries` increments. -/
lemma pollLoop_absent_prefix (probe : Nat → HistoryProbe) (maxR : Int) :
    ∀ (N fuel retries i sleeps : Nat) (st : Option String) (outs : Outputs) (rep : String),
      (∀ j, j < N → probe (i + j) = HistoryProbe.absent) →
      probe (i + N) = HistoryProbe.present st outs rep →
      st ≠ some "error" → outs ≠ [] →
      ((retries : Int) + N < maxR) → N < fuel →
      pollLoop probe maxR fuel retries i sleeps =
        some (PollOutcome.success (i + N + 1) (sleeps + N) (retries + N) outs) := by
  intro N
  induction N with
  | zero =>
    intro fuel retries i sleeps st outs rep _ hN hst houts hlt hfuel
    cases fuel with
    | zero => omega
    | succ f =>
      rw [pollLoop, if_pos (by omega : (retries : Int) < maxR)]
      simp only [Nat.add_zero] at hN
      simp only [hN, if_neg hst, if_pos houts, Nat.add_zero]
  | succ n ihN =>
    intro fuel retries i sleeps st outs rep hAbs hN hst houts hlt hfuel
    cases fuel with
    | zero => omega
    | succ f =>
      rw [pollLoop, if_pos (by omega : (retries : Int) < maxR)]
      have h0 : probe i = HistoryProbe.absent := by
        have := hAbs 0 (by omega)
        simpa using this
      simp only [h0]
      have hIH := ihN f (retries + 1) (i + 1) (sleeps + 1) st outs rep
        (by intro j hj
            have := hAbs (j + 1) (by omega)
            have e : i + (j + 1) = i + 1 + j := by omega
            rwa [e] at this)
        (by have e : i + (n + 1) = i + 1 + n := by omega
            rwa [e] at hN)
        hst houts (by push_cast; push_cast at hlt; omega) (by omega)
      rw [show i + 1 + n + 1 = i + (n + 1) + 1 by omega] at hIH
      rw [show sleeps + 1 + n = sleeps + (n + 1) by omega] at hIH
      rw [show retries + 1 + n = retries + (n + 1) by omega] at hIH
      exact hIH

/-- When every probe reports the record absent, the loop performs exactly
`(maxR - retries)⁺` further probes, sleeps and increments, then times out. -/
lemma pollLoop_all_absent (probe : Nat → HistoryProbe) (maxR : Int)
    (h : ∀ j, probe j = HistoryProbe.absent) :
    ∀ (fuel retries i sleeps : Nat), (maxR - (retries : Int)).toNat < fuel →
      pollLoop probe maxR fuel retries i sleeps =
        some (PollOutcome.timeout (i + (maxR - (retries : Int)).toNat)
          (sleeps + (maxR - (retries : Int)).toNat)
          (retries + (maxR - (retries : Int)).toNat)) := by
  intro fuel
  induction fuel with
  | zero =>
    intro retries i sleeps hle
    omega
  | succ f ih =>
    intro retries i sleeps hle
    by_cases hc : (retries : Int) < maxR
    · rw [pollLoop, if_pos hc]
      simp only [h i]
      have hpos : 1 ≤ (maxR - (retries : Int)).toNat := by omega
      have hrec := ih (retries + 1) (i + 1) (sleeps + 1) (by push_cast; omega)
      rw [hrec]
      have e : (maxR - ((retries + 1 : Nat) : Int)).toNat = (maxR - (retries : Int)).toNat - 1 := by
        push_cast; omega
      rw [e]
      rw [show i + 1 + ((maxR - (retries : Int)).toNat - 1) = i + (maxR - (retries : Int)).toNat by omega]
      rw [show sleeps + 1 + ((maxR - (retries : Int)).toNat - 1) = sleeps + (maxR - (retries : Int)).toNat by omega]
      rw [show retries + 1 + ((maxR - (retries : Int)).toNat - 1) = retries + (maxR - (retries : Int)).toNat by omega]
    · rw [pollLoop, if_neg hc]
      have hz : (maxR - (retries : Int)).toNat = 0 := by omega
      rw [hz]
      simp

/-- Counting absent probes from `i` over `n` probes agrees with counting
over `List.range` after shifting. -/
lemma absentBetween_eq_countP (probe : Nat → HistoryProbe) :
    ∀ n i, absentBetween probe i n =
      (List.range n).countP (fun j => decide (probe (i + j) = HistoryProbe.absent)) := by
  intro n
  induction n with
  | zero => intro i; simp [absentBetween]
  | succ n ih =>
    intro i
    rw [List.range_succ_eq_map]
    rw [List.countP_cons, List.countP_map]
    have e : ((fun j => decide (probe (i + j) = HistoryProbe.absent)) ∘ Nat.succ)
        = fun j => decide (probe (i + 1 + j) = HistoryProbe.absent) := by
      funext j
      have h2 : i + Nat.succ j = i + 1 + j := by omega
      simp [Function.comp, h2]
    rw [e, ← ih (i + 1)]
    by_cases hp : probe i = HistoryProbe.absent
    · simp [absentBetween, hp, Nat.add_comm]
    · simp [absentBetween, hp, Nat.add_comm]

/-- Started at index 0, `absentBetween` is `absentCount`. -/
lemma absentBetween_zero (probe : Nat → HistoryProbe) (n : Nat) :
    absentBetween probe 0 n = absentCount probe n := by
  rw [absentBetween_eq_countP, absentCount]
  congr 1
  funext j
  simp

/-- An all-absent history sequence can never make the poll loop succeed,
whatever the fuel. -/
lemma pollLoop_all_absent_ne_success (probe : Nat → HistoryProbe) (maxR : Int)
    (h : ∀ j, probe j = HistoryProbe.absent) :
    ∀ (fuel retries i sleeps p s r : Nat) (os : Outputs),
      pollLoop probe maxR fuel retries i sleeps ≠ some (PollOutcome.success p s r os) := by
  intro fuel
  induction fuel with
  | zero => intro retries i sleeps p s r os; simp [pollLoop]
  | succ f ih =>
    intro retries i sleeps p s r os
    rw [pollLoop]
    by_cases hc : (retries : Int) < maxR
    · rw [if_pos hc]
      simp only [h i]
      exact ih (retries + 1) (i + 1) (sleeps + 1) p s r os
    · rw [if_neg hc]
      simp

/-- C1: for a completion-status sequence where the history record for the
submission identifier is absent for the first `N` probes (`N` strictly
below the configured maximum) and probe `N` reports a record with
non-error status and non-empty outputs, the poll loop terminates with
success after exactly `N + 1` probes, having slept and incremented the
poll counter exactly `N` times; moreover for every terminating run on any
sequence the sleep count and the final `retries` counter both equal the
number of probes taken on the "record absent" branch, so neither advances
on a probe where a record exists. -/
theorem completionPoller_success_after_N_plus_one
    (probe : Nat → HistoryProbe) (maxR : Int) (N fuel : Nat)
    (st : Option String) (outs : Outputs) (rep : String)
    (hAbs : ∀ j, j < N → probe j = HistoryProbe.absent)
    (hN : probe N = HistoryProbe.present st outs rep)
    (hst : st ≠ some "error") (houts : outs ≠ [])
    (hlt : (N : Int) < maxR) (hfuel : N < fuel) :
    pollLoop probe maxR fuel 0 0 0 =
      some (PollOutcome.success (N + 1) N N outs) ∧
    ∀ (probe2 : Nat → HistoryProbe) (fuel2 : Nat) (o : PollOutcome),
      pollLoop probe2 maxR fuel2 0 0 0 = some o →
      o.sleeps = absentCount probe2 o.probes ∧
      o.retries = absentCount probe2 o.probes := by
  constructor
  · have := pollLoop_absent_prefix probe maxR N fuel 0 0 0 st outs rep
      (by intro j hj; simpa using hAbs j hj)
      (by simpa using hN)
      hst houts (by push_cast; omega) hfuel
    simpa using this
  · intro probe2 fuel2 o h
    obtain ⟨n, h1, h2, h3⟩ := pollLoop_counts probe2 maxR fuel2 0 0 0 o h
    have hn : n = o.probes := by omega
    subst hn
    rw [absentBetween_zero] at h2 h3
    constructor
    · omega
    · omega

/-- C1 witness: with the record absent for probes 0 and 1 and outputs
reported at probe 2, with maximum 5 and fuel 4, the loop succeeds after
exactly 3 probes with 2 sleeps and 2 increments. -/
theorem completionPoller_success_after_N_plus_one_witness :
    pollLoop
      (fun j => if j < 2 then HistoryProbe.absent
        else HistoryProbe.present none
          [("9", [("images", SlotVal.list [[("filename", "a.png"), ("type", "output"),
            ("subfolder", "")]])])] "None")
      5 4 0 0 0 =
      some (PollOutcome.success 3 2 2
        [("9", [("images", SlotVal.list [[("filename", "a.png"), ("type", "output"),
          ("subfolder", "")]])])]) ∧
    ∀ (probe2 : Nat → HistoryProbe) (fuel2 : Nat) (o : PollOutcome),
      pollLoop probe2 5 fuel2 0 0 0 = some o →
      o.sleeps = absentCount probe2 o.probes ∧
      o.retries = absentCount probe2 o.probes :=
  completionPoller_success_after_N_plus_one
    (fun j => if j < 2 then HistoryProbe.absent
      else HistoryProbe.present none
        [("9", [("images", SlotVal.list [[("filename", "a.png"), ("type", "output"),
          ("subfolder", "")]])])] "None")
    5 2 4 none
    [("9", [("images", SlotVal.list [[("filename", "a.png"), ("type", "output"),
      ("subfolder", "")]])])]
    "None"
    (by decide) (by decide) (by decide) (by decide) (by decide) (by decide)

/-- C3: for a completion-status sequence in which no history record for
the submission identifier ever appears, the poll loop terminates (with
any fuel above the configured maximum) after exactly `maxR` probes with
the timeout error, and no amount of fuel can make it return success. -/
theorem completionPoller_timeout_when_never_found
    (probe : Nat → HistoryProbe) (maxR fuel : Nat)
    (hAbs : ∀ j, probe j = HistoryProbe.absent) (hfuel : maxR < fuel) :
    pollLoop probe (maxR : Int) fuel 0 0 0 =
      some (PollOutcome.timeout maxR maxR maxR) ∧
    ∀ (fuel2 p s r : Nat) (os : Outputs),
      pollLoop probe (maxR : Int) fuel2 0 0 0 ≠
        some (PollOutcome.success p s r os) := by
  constructor
  · have hz : ((maxR : Int) - ((0 : Nat) : Int)).toNat = maxR := by omega
    have := pollLoop_all_absent probe (maxR : Int) hAbs fuel 0 0 0 (by omega)
    rw [hz] at this
    simpa using this
  · intro fuel2 p s r os
    exact pollLoop_all_absent_ne_success probe (maxR : Int) hAbs fuel2 0 0 0 p s r os

/-- C3 witness: with an always-absent record, maximum 3 and fuel 5, the
loop times out after exactly 3 probes and can never succeed. -/
theorem completionPoller_timeout_when_never_found_witness :
    pollLoop (fun _ => HistoryProbe.absent) ((3 : Nat) : Int) 5 0 0 0 =
      some (PollOutcome.timeout 3 3 3) ∧
    ∀ (fuel2 p s r : Nat) (os : Outputs),
      pollLoop (fun _ => HistoryProbe.absent) ((3 : Nat) : Int) fuel2 0 0 0 ≠
        some (PollOutcome.success p s r os) :=
  completionPoller_timeout_when_never_found (fun _ => HistoryProbe.absent) 3 5
    (fun _ => rfl) (by decide)

/-- C4 counterexample: with `COMFY_POLLING_MAX_RETRIES` configured to
`"3"` in the environment, a history sequence that reports outputs on the
very first probe does not make the poller succeed (as behaving according
to the configured numeric value 3 would); instead the loop's comparison
of the `int` counter with the `str` configuration value raises a
`TypeError`, which the surrounding `except Exception` turns into an error
result.  The second conjunct shows the behaviour the claim promises under
the numeric value 3. -/
theorem pollingConfig_not_honored_counterexample :
    pollLoopPy probeImmediate (COMFY_POLLING_MAX_RETRIES envMaxRetries3)
        (COMFY_POLLING_INTERVAL_MS envMaxRetries3) 10 0 0 0 =
      some (Except.error "TypeError: unsupported comparison between int and str") ∧
    pollLoop probeImmediate 3 10 0 0 0 =
      some (PollOutcome.success 1 0 0 sampleOutputs) := by
  constructor
  · rfl
  · rfl

/-- C4 amended: the completion poll interval and maximum attempt count are
read from the environment (defaulting to the integers 250 and 5000), but
without integer conversion: whenever `COMFY_POLLING_MAX_RETRIES` is set,
every poll run immediately raises a `TypeError` (caught and surfaced as an
error result), so the configured numeric values are not honored; when both
values are left at their integer defaults the Python-typed loop agrees
with the numeric loop; and the engine-availability probe's interval and
maximum attempts are the hardcoded constants 50 and 500, not read from
the environment. -/
theorem pollingConfig_amended
    (env : Env) (s : String) (probe : Nat → HistoryProbe)
    (hset : env "COMFY_POLLING_MAX_RETRIES" = some s) :
    (∀ (fuel retries i sleeps : Nat), 0 < fuel →
      pollLoopPy probe (COMFY_POLLING_MAX_RETRIES env) (COMFY_POLLING_INTERVAL_MS env)
          fuel retries i sleeps =
        some (Except.error "TypeError: unsupported comparison between int and str")) ∧
    (∀ (probe2 : Nat → HistoryProbe) (m v : Int) (fuel retries i sleeps : Nat),
      pollLoopPy probe2 (PyVal.int m) (PyVal.int v) fuel retries i sleeps =
        (pollLoop probe2 m fuel retries i sleeps).map Except.ok) ∧
    (∀ env2 : Env, env2 "COMFY_POLLING_MAX_RETRIES" = none →
      COMFY_POLLING_MAX_RETRIES env2 = PyVal.int 5000) ∧
    (∀ env2 : Env, env2 "COMFY_POLLING_INTERVAL_MS" = none →
      COMFY_POLLING_INTERVAL_MS env2 = PyVal.int 250) ∧
    COMFY_API_AVAILABLE_INTERVAL_MS = 50 ∧
    COMFY_API_AVAILABLE_MAX_RETRIES = 500 := by
  refine ⟨?_, ?_, ?_, ?_, rfl, rfl⟩
  · intro fuel retries i sleeps hfuel
    cases fuel with
    | zero => omega
    | succ f =>
      rw [pollLoopPy]
      rw [COMFY_POLLING_MAX_RETRIES, hset]
      rfl
  · intro probe2 m v fuel
    induction fuel with
    | zero => intro retries i sleeps; simp [pollLoopPy, pollLoop]
    | succ f ih =>
      intro retries i sleeps
      rw [pollLoopPy, pollLoop]
      show (match pyLtIntVal (retries : Int) (PyVal.int m) with
        | Except.error e => some (Except.error e)
        | Except.ok false => some (Except.ok (PollOutcome.timeout i sleeps retries))
        | Except.ok true =>
          match probe2 i with
          | HistoryProbe.present status outputs outputRepr =>
            if status = some "error" then
              some (Except.ok (PollOutcome.genError (i + 1) sleeps retries outputRepr))
            else if outputs ≠ [] then
              some (Except.ok (PollOutcome.success (i + 1) sleeps retries outputs))
            else
              pollLoopPy probe2 (PyVal.int m) (PyVal.int v) f retries (i + 1) sleeps
          | HistoryProbe.absent =>
            match pySleepArgOk (PyVal.int v) with
            | Except.error e => some (Except.error e)
            | Except.ok _ =>
              pollLoopPy probe2 (PyVal.int m) (PyVal.int v) f (retries + 1) (i + 1) (sleeps + 1)) = _
      rw [pyLtIntVal]
      by_cases hc : (retries : Int) < m
      · simp only [decide_eq_true hc]
        cases hp : probe2 i with
        | absent =>
          simp only [if_pos hc, pySleepArgOk]
          exact ih (retries + 1) (i + 1) (sleeps + 1)
        | present st outs rep =>
          by_cases hst : st = some "error"
          · simp [if_pos hc, hst]
          · by_cases ho : outs ≠ []
            · simp [if_pos hc, hst, ho]
            · simp only [if_pos hc, if_neg hst, if_neg ho]
              exact ih retries (i + 1) sleeps
      · simp only [decide_eq_false hc]
        simp [if_neg hc]
  · intro env2 h2; rw [COMFY_POLLING_MAX_RETRIES, h2]
  · intro env2 h2; rw [COMFY_POLLING_INTERVAL_MS, h2]

/-- C4 amended witness: instantiation of the amended statement at the
concrete environment setting `COMFY_POLLING_MAX_RETRIES = "3"`. -/
theorem pollingConfig_amended_witness :
    pollLoopPy probeImmediate (COMFY_POLLING_MAX_RETRIES envMaxRetries3)
        (COMFY_POLLING_INTERVAL_MS envMaxRetries3) 10 0 0 0 =
      some (Except.error "TypeError: unsupported comparison between int and str") ∧
    pollLoopPy probeImmediate (PyVal.int 5000) (PyVal.int 250) 4 0 0 0 =
      (pollLoop probeImmediate 5000 4 0 0 0).map Except.ok := by
  have h := pollingConfig_amended envMaxRetries3 "3" probeImmediate (by rfl)
  exact ⟨h.1 10 0 0 0 (by decide), h.2.1 probeImmediate 5000 250 4 0 0 0⟩

/-- When every image decodes, the loop posts every item, regardless of
per-item HTTP failures. -/
lemma uploadImagesLoop_attempts (post : String → List Nat → Nat × String) :
    ∀ (imgs : List ComfyImageInput) (responses uploadErrors attempted : List String),
      (∀ i ∈ imgs, ∃ b, b64decode i.image = Except.ok b) →
      (uploadImagesLoop post imgs responses uploadErrors attempted).2 =
        attempted ++ imgs.map (fun i => i.name) := by
  intro imgs
  induction imgs with
  | nil =>
    intro responses uploadErrors attempted _
    by_cases he : uploadErrors ≠ [] <;> simp [uploadImagesLoop, he]
  | cons img rest ih =>
    intro responses uploadErrors attempted h
    obtain ⟨b, hb⟩ := h img (by simp)
    rw [uploadImagesLoop, hb]
    dsimp only
    by_cases hr : (post img.name b).1 ≠ 200
    · rw [if_pos hr, ih _ _ _ (by intro i hi; exact h i (by simp [hi]))]
      simp
    · rw [if_neg hr, ih _ _ _ (by intro i hi; exact h i (by simp [hi]))]
      simp

/-- C2 counterexample: a batch of two inline images whose second item has
invalid base64 content (`"A"`: one data character) does not yield a result
dictionary with status error, one error message and the first item's
success message, as the claim states; `base64.b64decode` raises and the
exception escapes `upload_images` uncaught, discarding the first item's
success and never attempting the second item's post. -/
theorem uploadImages_invalid_base64_counterexample :
    upload_images (fun _ _ => (200, "ok"))
        (some [⟨"a.png", "QUJD"⟩, ⟨"b.png", "A"⟩]) =
      (UploadOutcome.exception "Invalid base64-encoded string", ["a.png"]) := by
  rfl

/-- Full characterization of the upload loop on decodable batches: one
error message per failed item and one success message per successful item
accumulate in batch order, every item's post is attempted, and the result
is the error dictionary carrying exactly the accumulated error messages
when any exist, the success dictionary carrying the success messages
otherwise. -/
lemma uploadImagesLoop_spec (post : String → List Nat → Nat × String) :
    ∀ (imgs : List ComfyImageInput) (responses uploadErrors attempted : List String),
      (∀ i ∈ imgs, ∃ b, b64decode i.image = Except.ok b) →
      uploadImagesLoop post imgs responses uploadErrors attempted =
        (if uploadErrors ++ (imgs.filter (itemFailed post)).map (itemErrMsg post) ≠ [] then
          UploadOutcome.result ⟨"error", "Some images failed to upload",
            uploadErrors ++ (imgs.filter (itemFailed post)).map (itemErrMsg post)⟩
         else
          UploadOutcome.result ⟨"success", "All images uploaded successfully",
            responses ++ (imgs.filter (fun i => !(itemFailed post i))).map itemSuccMsg⟩,
         attempted ++ imgs.map (fun i => i.name)) := by
  intro imgs
  induction imgs with
  | nil =>
    intro responses uploadErrors attempted _
    by_cases he : uploadErrors = [] <;> simp [uploadImagesLoop, he]
  | cons img rest ih =>
    intro responses uploadErrors attempted h
    obtain ⟨b, hb⟩ := h img (by simp)
    have hblob : decodedBlob img = b := by rw [decodedBlob, hb]
    rw [uploadImagesLoop, hb]
    dsimp only
    by_cases hr : (post img.name b).1 ≠ 200
    · have hfail : itemFailed post img = true := by
        simp [itemFailed, hblob, hr]
      rw [if_pos hr, ih _ _ _ (fun i hi => h i (by simp [hi]))]
      rw [List.filter_cons_of_pos hfail]
      have hmsg : itemErrMsg post img =
          "Error uploading " ++ img.name ++ ": " ++ (post img.name b).2 := by
        rw [itemErrMsg, hblob]
      rw [List.map_cons, hmsg]
      simp [List.append_assoc]
    · have h200 : (post img.name b).1 = 200 := not_ne_iff.mp hr
      have hfail : itemFailed post img = false := by
        simp [itemFailed, hblob, h200]
      rw [if_neg hr, ih _ _ _ (fun i hi => h i (by simp [hi]))]
      rw [List.filter_cons_of_neg (by simp [hfail])]
      rw [List.filter_cons_of_pos (by simp [hfail])]
      rw [List.map_cons]
      have hmsg : itemSuccMsg img = "Successfully uploaded " ++ img.name := rfl
      rw [hmsg]
      simp [List.append_assoc]

/-- C2 amended: on every non-empty batch whose items all decode, the
inline-image upload is aggregate-tolerant: every item's post is attempted
regardless of earlier failures (first conjunct); the result has status
`error` exactly when at least one item's post failed — and then its
details carry one error message per failed item, in batch order, with the
successful items' messages NOT included (second conjunct) — while a batch
whose posts all succeed yields the success dictionary listing every
item's success message (third conjunct).  An item with invalid base64
content instead raises an uncaught exception that aborts the whole batch
(see the counterexample). -/
theorem uploadImages_amended (post : String → List Nat → Nat × String)
    (imgs : List ComfyImageInput)
    (hdec : ∀ i ∈ imgs, ∃ b, b64decode i.image = Except.ok b)
    (hne : imgs ≠ []) :
    (upload_images post (some imgs)).2 = imgs.map (fun i => i.name) ∧
    ((∃ i ∈ imgs, itemFailed post i = true) →
      (upload_images post (some imgs)).1 =
        UploadOutcome.result ⟨"error", "Some images failed to upload",
          (imgs.filter (itemFailed post)).map (itemErrMsg post)⟩) ∧
    ((∀ i ∈ imgs, itemFailed post i = false) →
      (upload_images post (some imgs)).1 =
        UploadOutcome.result ⟨"success", "All images uploaded successfully",
          imgs.map itemSuccMsg⟩) := by
  have hup : upload_images post (some imgs) = uploadImagesLoop post imgs [] [] [] := by
    rw [upload_images]
    rw [if_neg hne]
  have hspec := uploadImagesLoop_spec post imgs [] [] [] hdec
  refine ⟨?_, ?_, ?_⟩
  · rw [hup, hspec]
    simp
  · rintro ⟨i, hi, hf⟩
    have hmem : itemErrMsg post i ∈ (imgs.filter (itemFailed post)).map (itemErrMsg post) :=
      List.mem_map_of_mem _ (List.mem_filter.mpr ⟨hi, hf⟩)
    have hne2 : (imgs.filter (itemFailed post)).map (itemErrMsg post) ≠ [] :=
      List.ne_nil_of_mem hmem
    rw [hup, hspec]
    simp [hne2]
  · intro hall
    have hfe : imgs.filter (itemFailed post) = [] := by
      rw [List.filter_eq_nil_iff]
      intro i hi
      simp [hall i hi]
    have hfs : imgs.filter (fun i => !(itemFailed post i)) = imgs := by
      rw [List.filter_eq_self]
      intro i hi
      simp [hall i hi]
    rw [hup, hspec, hfe, hfs]
    simp

/-- C2 amended witness: concrete three-image batch whose first post
returns 200 and whose other two return 500 — both attempted, error status
with exactly the two failed items' messages; a second all-success batch
yields the success dictionary. -/
theorem uploadImages_amended_witness :
    (upload_images post3 (some imgs3)).2 = imgs3.map (fun i => i.name) ∧
    (upload_images post3 (some imgs3)).1 =
      UploadOutcome.result ⟨"error", "Some images failed to upload",
        (imgs3.filter (itemFailed post3)).map (itemErrMsg post3)⟩ ∧
    (upload_images post3 (some [⟨"a.png", "QUJD"⟩])).1 =
      UploadOutcome.result ⟨"success", "All images uploaded successfully",
        [⟨"a.png", "QUJD"⟩].map itemSuccMsg⟩ :=
  ⟨(uploadImages_amended post3 imgs3
      (by
        intro i hi
        simp only [imgs3, List.mem_cons, List.not_mem_nil, or_false] at hi
        rcases hi with rfl | rfl | rfl
        · exact ⟨b64DecodeGroups ['Q', 'U', 'J', 'D'], rfl⟩
        · exact ⟨b64DecodeGroups ['Q', 'U', 'J', 'E'], rfl⟩
        · exact ⟨b64DecodeGroups ['Q', 'U', 'J', 'G'], rfl⟩)
      (by decide)).1,
   (uploadImages_amended post3 imgs3
      (by
        intro i hi
        simp only [imgs3, List.mem_cons, List.not_mem_nil, or_false] at hi
        rcases hi with rfl | rfl | rfl
        · exact ⟨b64DecodeGroups ['Q', 'U', 'J', 'D'], rfl⟩
        · exact ⟨b64DecodeGroups ['Q', 'U', 'J', 'E'], rfl⟩
        · exact ⟨b64DecodeGroups ['Q', 'U', 'J', 'G'], rfl⟩)
      (by decide)).2.1
     ⟨⟨"b.png", "QUJE"⟩, by decide, by decide⟩,
   (uploadImages_amended post3 [⟨"a.png", "QUJD"⟩]
      (by
        intro i hi
        simp only [List.mem_cons, List.not_mem_nil, or_false] at hi
        subst hi
        exact ⟨b64DecodeGroups ['Q', 'U', 'J', 'D'], rfl⟩)
      (by decide)).2.2
     (by decide)⟩

/-- The inner slot loop of `collectOutputFiles` appends each slot's
contribution. -/
lemma collectOutputFiles_inner (slots : List (String × SlotVal)) :
    ∀ acc : List SDict,
      slots.foldl (fun acc2 slot =>
        match slot.2 with
        | SlotVal.list ds => acc2 ++ ds.filter is_an_output_file
        | SlotVal.dict d => if is_an_output_file d then acc2 ++ [d] else acc2
        | SlotVal.other => acc2) acc =
      acc ++ slots.flatMap (fun slot => slotContribution slot.2) := by
  induction slots with
  | nil => intro acc; simp
  | cons slot rest ih =>
    intro acc
    rw [List.foldl_cons, List.flatMap_cons]
    cases hv : slot.2 with
    | list ds => rw [ih]; simp [slotContribution]
    | dict d =>
      by_cases hd : is_an_output_file d
      · simp only [hd, if_pos]
        rw [ih]
        simp [slotContribution, hd]
      · simp only [hd, if_neg]
        rw [ih]
        simp [slotContribution, hd]
    | other => rw [ih]; simp [slotContribution]

/-- The collected descriptors are the flattening of all slots filtered by
the generated-output predicate. -/
lemma collectOutputFiles_eq_bind (outputs : Outputs) :
    collectOutputFiles outputs =
      outputs.flatMap (fun node => node.2.flatMap (fun slot => slotContribution slot.2)) := by
  suffices h : ∀ (l : Outputs) (acc : List SDict),
      l.foldl (fun acc node =>
        node.2.foldl (fun acc2 slot =>
          match slot.2 with
          | SlotVal.list ds => acc2 ++ ds.filter is_an_output_file
          | SlotVal.dict d => if is_an_output_file d then acc2 ++ [d] else acc2
          | SlotVal.other => acc2) acc) acc =
      acc ++ l.flatMap (fun node => node.2.flatMap (fun slot => slotContribution slot.2)) by
    have := h outputs []
    simpa [collectOutputFiles] using this
  intro l
  induction l with
  | nil => intro acc; simp
  | cons node rest ih =>
    intro acc
    rw [List.foldl_cons, List.flatMap_cons, collectOutputFiles_inner, ih]
    simp

/-- A descriptor is collected iff it sits in some slot of some node and
satisfies the generated-output predicate. -/
lemma mem_collectOutputFiles (outputs : Outputs) (d : SDict) :
    d ∈ collectOutputFiles outputs ↔
      (∃ node ∈ outputs, ∃ slot ∈ node.2,
        (match slot.2 with
         | SlotVal.list ds => d ∈ ds
         | SlotVal.dict d2 => d2 = d
         | SlotVal.other => False) ∧ is_an_output_file d = true) := by
  rw [collectOutputFiles_eq_bind]
  simp only [List.mem_flatMap]
  constructor
  · rintro ⟨node, hnode, slot, hslot, hd⟩
    refine ⟨node, hnode, slot, hslot, ?_⟩
    cases hv : slot.2 with
    | list ds =>
      rw [hv] at hd
      simp only [slotContribution] at hd
      have := List.mem_filter.mp hd
      exact ⟨this.1, this.2⟩
    | dict d2 =>
      rw [hv] at hd
      simp only [slotContribution] at hd
      by_cases h2 : is_an_output_file d2
      · rw [if_pos h2] at hd
        simp at hd
        subst hd
        exact ⟨rfl, h2⟩
      · rw [if_neg h2] at hd
        simp at hd
    | other =>
      rw [hv] at hd
      simp [slotContribution] at hd
  · rintro ⟨node, hnode, slot, hslot, hmem, hout⟩
    refine ⟨node, hnode, slot, hslot, ?_⟩
    cases hv : slot.2 with
    | list ds =>
      rw [hv] at hmem
      simp only [slotContribution]
      exact List.mem_filter.mpr ⟨hmem, hout⟩
    | dict d2 =>
      rw [hv] at hmem
      subst hmem
      simp only [slotContribution]
      rw [if_pos hout]
      simp
    | other =>
      rw [hv] at hmem
      exact absurd hmem (by simp)

/-- When every descriptor carries both path keys, resolution succeeds and
is the pointwise join. -/
lemma resolveAll_ok (root : String) :
    ∀ ds : List SDict,
      (∀ d ∈ ds, (List.lookup "subfolder" d).isSome ∧ (List.lookup "filename" d).isSome) →
      resolveAll root ds = Except.ok (ds.map (fun d =>
        osPathJoin3 root ((List.lookup "subfolder" d).getD "")
          ((List.lookup "filename" d).getD ""))) := by
  intro ds
  induction ds with
  | nil => intro _; rfl
  | cons d rest ih =>
    intro h
    obtain ⟨h1, h2⟩ := h d (by simp)
    obtain ⟨sub, hsub⟩ := Option.isSome_iff_exists.mp h1
    obtain ⟨fn, hfn⟩ := Option.isSome_iff_exists.mp h2
    rw [resolveAll, resolveOutputPath, hsub, hfn]
    rw [ih (by intro x hx; exact h x (by simp [hx]))]
    simp [hsub, hfn]

/-- The sidecar loop collects, in image order, the sidecar path of every
image path whose sidecar exists. -/
lemma sidecarFold_eq (fs : String → Bool) :
    ∀ (paths acc : List String),
      paths.foldl
        (fun acc p => if fs (txtSidecarPath p) then acc ++ [txtSidecarPath p] else acc)
        acc =
      acc ++ (paths.filter (fun p => fs (txtSidecarPath p))).map txtSidecarPath := by
  intro paths
  induction paths with
  | nil => intro acc; simp
  | cons p rest ih =>
    intro acc
    rw [List.foldl_cons]
    by_cases hp : fs (txtSidecarPath p)
    · rw [if_pos hp, ih]
      simp [hp]
    · rw [if_neg hp, ih]
      simp [hp]

/-- C5: the output collector keeps exactly the descriptors that have a
filename and type `"output"`, resolves each kept descriptor to the join of
the configured root, its subfolder and its filename (in flattening order),
appends the existing same-basename `.txt` sidecars after all image paths in
the image paths' order, fails with the "No image generated" error result
when the resulting list is empty, and on the concrete one-descriptor
payload with an existing sibling `a.txt` returns
`["/comfyui/output/a.png", "/comfyui/output/a.txt"]` in that order. -/
theorem outputCollector_C5 (fs : String → Bool) (outputs : Outputs)
    (hkeys : ∀ d ∈ collectOutputFiles outputs,
      (List.lookup "subfolder" d).isSome ∧ (List.lookup "filename" d).isSome) :
    (∀ root, collectOutputPaths root fs outputs =
      Except.ok (
        ((collectOutputFiles outputs).map (fun d =>
          osPathJoin3 root ((List.lookup "subfolder" d).getD "")
            ((List.lookup "filename" d).getD ""))) ++
        ((((collectOutputFiles outputs).map (fun d =>
          osPathJoin3 root ((List.lookup "subfolder" d).getD "")
            ((List.lookup "filename" d).getD ""))).filter
              (fun p => fs (txtSidecarPath p))).map txtSidecarPath))) ∧
    (∀ d, d ∈ collectOutputFiles outputs ↔
      (∃ node ∈ outputs, ∃ slot ∈ node.2,
        (match slot.2 with
         | SlotVal.list ds => d ∈ ds
         | SlotVal.dict d2 => d2 = d
         | SlotVal.other => False) ∧ is_an_output_file d = true)) ∧
    (∀ (env : Env) fileB64 s3u rpU job_id odef,
      collectOutputPaths ((env "COMFY_OUTPUT_PATH").getD "/comfyui/output") fs outputs =
        Except.ok [] →
      process_output_images env fs fileB64 s3u rpU outputs job_id odef =
        Except.ok ⟨"error", PyMsg.str "No image generated"⟩) ∧
    collectOutputPaths "/comfyui/output" (fun p => p = "/comfyui/output/a.txt")
        sampleOutputs =
      Except.ok ["/comfyui/output/a.png", "/comfyui/output/a.txt"] := by
  refine ⟨?_, mem_collectOutputFiles outputs, ?_, by decide⟩
  · intro root
    rw [collectOutputPaths, resolveAll_ok root _ hkeys]
    dsimp only
    rw [sidecarFold_eq]
    simp
  · intro env fileB64 s3u rpU job_id odef hempty
    rw [process_output_images]
    rw [hempty]
    rfl

/-- C5 witness: instantiation at the concrete one-descriptor payload (for
the hypothesis-carrying conjuncts). -/
theorem outputCollector_C5_witness :
    collectOutputPaths "/comfyui/output" (fun p => p = "/comfyui/output/a.txt")
        sampleOutputs =
      Except.ok ["/comfyui/output/a.png", "/comfyui/output/a.txt"] ∧
    process_output_images (fun _ => none) (fun _ => false) (fun _ => "") 
        (fun _ _ _ => Except.ok ()) (fun _ _ => "") [] "job-1" none =
      Except.ok ⟨"error", PyMsg.str "No image generated"⟩ :=
  ⟨(outputCollector_C5 (fun p => p = "/comfyui/output/a.txt") sampleOutputs
      (by decide)).2.2.2,
   (outputCollector_C5 (fun _ => false) [] (by simp [collectOutputFiles])).2.2.1
      (fun _ => none) (fun _ => "") (fun _ _ _ => Except.ok ()) (fun _ _ => "")
      "job-1" none (by rfl)⟩

/-- The existence filter of `check_file_path_exist`: the flag is the
conjunction of existence and the list keeps exactly the existing paths in
order. -/
lemma check_file_path_exist_eq (fs : String → Bool) (paths : List String) :
    check_file_path_exist fs paths = (paths.all fs, paths.filter fs) := by
  suffices h : ∀ (l : List String) (b : Bool) (acc : List String),
      l.foldl (fun acc path => if !(fs path) then (false, acc.2) else (acc.1, acc.2 ++ [path]))
        (b, acc) = (b && l.all fs, acc ++ l.filter fs) by
    have := h paths true []
    simpa [check_file_path_exist] using this
  intro l
  induction l with
  | nil => intro b acc; simp
  | cons p rest ih =>
    intro b acc
    rw [List.foldl_cons]
    by_cases hp : fs p
    · simp only [hp]
      rw [ih]
      simp [hp]
    · simp only [Bool.not_eq_true] at hp
      simp only [hp]
      rw [ih]
      simp [hp]

/-- When the client call succeeds on every file, the rp_handler upload
loop attempts every file under key `{job_id}/{basename}` and returns one
URL `{endpoint}/{bucket}/{key}` per file, in order. -/
lemma rpUploadS3Loop_all_ok (u : String → String → String → Except String Unit)
    (job_id bucket ep2 : String) :
    ∀ (files urls : List String) (attempts : List (String × String)),
      (∀ f ∈ files, u f bucket (job_id ++ "/" ++ lastPathComponent f) = Except.ok ()) →
      RpHandler.uploadS3Loop u job_id bucket ep2 files urls attempts =
        (Except.ok (urls ++ files.map (fun f =>
          ep2 ++ "/" ++ bucket ++ "/" ++ (job_id ++ "/" ++ lastPathComponent f))),
         attempts ++ files.map (fun f => (f, job_id ++ "/" ++ lastPathComponent f))) := by
  intro files
  induction files with
  | nil => intro urls attempts _; simp [RpHandler.uploadS3Loop]
  | cons f rest ih =>
    intro urls attempts h
    rw [RpHandler.uploadS3Loop]
    rw [h f (by simp)]
    rw [ih _ _ (by intro x hx; exact h x (by simp [hx]))]
    simp

/-- C6: in object-storage mode with credentials present, paths that do not
exist on the filesystem are dropped and publishing continues with the
remaining paths; every existing path is uploaded under the key
`{job_id}/{basename}` (third conjunct); when all uploads succeed the
result is the success list of `{endpoint}/{bucket}/{job_id}/{basename}`
URLs for exactly the existing paths; and a single upload failure turns the
entire publish into an error result whose message is a diagnostic string —
no partial URL list is returned. -/
theorem resultPublisher_s3_C6
    (env : Env) (fs : String → Bool) (fileB64 : String → String)
    (s3u : String → String → String → Except String Unit)
    (rpU : String → String → String) (outputs : Outputs) (job_id : String)
    (odef : ComfyOutput) (paths : List String)
    (htype : odef.type = "s3")
    (hcreds1 : (env (odef.keyPfx ++ "AWS_ACCESS_KEY_ID")).isSome)
    (hcreds2 : (env (odef.keyPfx ++ "AWS_SECRET_ACCESS_KEY")).isSome)
    (hpaths : collectOutputPaths ((env "COMFY_OUTPUT_PATH").getD "/comfyui/output")
      fs outputs = Except.ok paths)
    (hne : paths ≠ []) :
    ((∀ f ∈ paths.filter fs,
        s3u f odef.bucket (job_id ++ "/" ++ lastPathComponent f) = Except.ok ()) →
      process_output_images env fs fileB64 s3u rpU outputs job_id (some odef) =
        Except.ok ⟨"success", PyMsg.list ((paths.filter fs).map (fun f =>
          rstripSlash odef.endpoint_url ++ "/" ++ odef.bucket ++ "/" ++
            (job_id ++ "/" ++ lastPathComponent f)))⟩) ∧
    (∀ e, (RpHandler.upload_files_to_s3 s3u job_id (paths.filter fs)
        odef.bucket odef.endpoint_url).1 = Except.error e →
      process_output_images env fs fileB64 s3u rpU outputs job_id (some odef) =
        Except.ok ⟨"error", PyMsg.str ("Error uploading files to s3: " ++ e)⟩) ∧
    (∀ files : List String,
      (∀ f ∈ files,
        s3u f odef.bucket (job_id ++ "/" ++ lastPathComponent f) = Except.ok ()) →
      (RpHandler.upload_files_to_s3 s3u job_id files odef.bucket odef.endpoint_url).2 =
        files.map (fun f => (f, job_id ++ "/" ++ lastPathComponent f))) := by
  obtain ⟨ak, hak⟩ := Option.isSome_iff_exists.mp hcreds1
  obtain ⟨sk, hsk⟩ := Option.isSome_iff_exists.mp hcreds2
  refine ⟨?_, ?_, ?_⟩
  · intro hallok
    rw [process_output_images]
    rw [hpaths]
    dsimp only
    rw [if_neg hne, if_pos htype, hak, hsk]
    dsimp only
    rw [check_file_path_exist_eq]
    dsimp only
    rw [RpHandler.upload_files_to_s3,
      rpUploadS3Loop_all_ok s3u job_id odef.bucket (rstripSlash odef.endpoint_url)
        (paths.filter fs) [] [] hallok]
    simp
  · intro e he
    rw [process_output_images]
    rw [hpaths]
    dsimp only
    rw [if_neg hne, if_pos htype, hak, hsk]
    dsimp only
    rw [check_file_path_exist_eq]
    dsimp only
    rw [he]
  · intro files hallok
    rw [RpHandler.upload_files_to_s3,
      rpUploadS3Loop_all_ok s3u job_id odef.bucket (rstripSlash odef.endpoint_url)
        files [] [] hallok]
    simp

/-- C6 witness: concrete run in which the image path exists, its sidecar
does not, and the single upload succeeds. -/
theorem resultPublisher_s3_C6_witness :
    process_output_images envWithCreds (fun p => p = "/comfyui/output/a.png")
        (fun _ => "") (fun _ _ _ => Except.ok ()) (fun _ _ => "")
        sampleOutputs "job-1" (some odefS3) =
      Except.ok ⟨"success", PyMsg.list
        ((["/comfyui/output/a.png"].filter (fun p : String =>
            p = "/comfyui/output/a.png")).map (fun f =>
          rstripSlash odefS3.endpoint_url ++ "/" ++ odefS3.bucket ++ "/" ++
            ("job-1" ++ "/" ++ lastPathComponent f)))⟩ :=
  (resultPublisher_s3_C6 envWithCreds (fun p => p = "/comfyui/output/a.png")
    (fun _ => "") (fun _ _ _ => Except.ok ()) (fun _ _ => "") sampleOutputs
    "job-1" odefS3 ["/comfyui/output/a.png"]
    (by decide) (by decide) (by decide) (by decide) (by decide)).1 (by decide)

/-- C7: in object-storage mode, when either per-prefix credential is
absent from the environment, `process_output_images` returns the
structured `AWS credentials are missing` error result — an `Except.ok`,
i.e. no exception — and the result is the same whatever the object-store
client would do, so no upload is attempted. -/
theorem resultPublisher_credentials_missing_C7
    (env : Env) (fs : String → Bool) (fileB64 : String → String)
    (rpU : String → String → String) (outputs : Outputs) (job_id : String)
    (odef : ComfyOutput) (paths : List String)
    (htype : odef.type = "s3")
    (hmiss : env (odef.keyPfx ++ "AWS_ACCESS_KEY_ID") = none ∨
      env (odef.keyPfx ++ "AWS_SECRET_ACCESS_KEY") = none)
    (hpaths : collectOutputPaths ((env "COMFY_OUTPUT_PATH").getD "/comfyui/output")
      fs outputs = Except.ok paths)
    (hne : paths ≠ []) :
    ∀ s3u : String → String → String → Except String Unit,
      process_output_images env fs fileB64 s3u rpU outputs job_id (some odef) =
        Except.ok ⟨"error", PyMsg.str "AWS credentials are missing"⟩ := by
  intro s3u
  rw [process_output_images]
  rw [hpaths]
  dsimp only
  rw [if_neg hne, if_pos htype]
  rcases hmiss with hm | hm
  · rw [hm]
  · rw [hm]
    rcases hak : env (odef.keyPfx ++ "AWS_ACCESS_KEY_ID") with _ | ak <;> rfl

/-- C7 witness: empty environment (no credentials), image path present. -/
theorem resultPublisher_credentials_missing_C7_witness :
    process_output_images (fun _ => none) (fun p => p = "/comfyui/output/a.png")
        (fun _ => "") (fun _ _ _ => Except.error "would upload") (fun _ _ => "")
        sampleOutputs "job-1" (some odefS3) =
      Except.ok ⟨"error", PyMsg.str "AWS credentials are missing"⟩ :=
  resultPublisher_credentials_missing_C7 (fun _ => none)
    (fun p => p = "/comfyui/output/a.png") (fun _ => "") (fun _ _ => "")
    sampleOutputs "job-1" odefS3 ["/comfyui/output/a.png"]
    (by decide) (Or.inl (by rfl)) (by decide) (by decide)
    (fun _ _ _ => Except.error "would upload")

/-- When every file exists and every client call succeeds, the s3.py
upload loop attempts every file under key `{job_id}/{basename}` and
returns one URL `{endpoint}/{key}` per file (no bucket segment). -/
lemma s3UploadS3Loop_all_ok (fsE : String → Bool)
    (u : String → String → String → Except String Unit) (job_id bucket ep : String) :
    ∀ (files urls : List String) (attempts : List (String × String)),
      (∀ f ∈ files, fsE f = true) →
      (∀ f ∈ files, u f bucket (job_id ++ "/" ++ lastPathComponent f) = Except.ok ()) →
      S3.uploadS3Loop fsE u job_id bucket ep files urls attempts =
        (Except.ok (urls ++ files.map (fun f =>
          ep ++ "/" ++ (job_id ++ "/" ++ lastPathComponent f))),
         attempts ++ files.map (fun f => (f, job_id ++ "/" ++ lastPathComponent f))) := by
  intro files
  induction files with
  | nil => intro urls attempts _ _; simp [S3.uploadS3Loop]
  | cons f rest ih =>
    intro urls attempts hex hok
    rw [S3.uploadS3Loop]
    rw [if_neg (by simp [hex f (by simp)])]
    dsimp only
    rw [hok f (by simp)]
    rw [ih _ _ (by intro x hx; exact hex x (by simp [hx]))
      (by intro x hx; exact hok x (by simp [hx]))]
    simp

/-- C10 counterexample: on the same job id, file list, bucket and endpoint
with the upload succeeding, rp_handler.py's `upload_files_to_s3` returns
`["http://e/bkt/j/a.png"]` while s3.py's returns `["http://e/j/a.png"]` —
different URL lists, so the two implementations are not equivalent. -/
theorem uploadFilesToS3_equivalence_counterexample :
    (RpHandler.upload_files_to_s3 (fun _ _ _ => Except.ok ()) "j" ["out/a.png"]
        "bkt" "http://e").1 = Except.ok ["http://e/bkt/j/a.png"] ∧
    (S3.upload_files_to_s3 (fun _ => true) (fun _ _ _ => Except.ok ()) "j"
        ["out/a.png"] "bkt" "http://e").1 = Except.ok ["http://e/j/a.png"] ∧
    (RpHandler.upload_files_to_s3 (fun _ _ _ => Except.ok ()) "j" ["out/a.png"]
        "bkt" "http://e").1 ≠
      (S3.upload_files_to_s3 (fun _ => true) (fun _ _ _ => Except.ok ()) "j"
        ["out/a.png"] "bkt" "http://e").1 := by
  refine ⟨by decide, by decide, by decide⟩

/-- C10 amended: with the same inputs, existing files and all uploads
succeeding, the two implementations attempt exactly the same
`(file, {job_id}/{basename})` uploads in the same order, but their URL
lists differ systematically: rp_handler.py yields
`{endpoint-with-trailing-slashes-stripped}/{bucket}/{key}` while s3.py
yields `{endpoint}/{key}` without a bucket segment. -/
theorem uploadFilesToS3_amended
    (u : String → String → String → Except String Unit) (fsE : String → Bool)
    (job_id bucket ep : String) (files : List String)
    (hex : ∀ f ∈ files, fsE f = true)
    (hok : ∀ f ∈ files, u f bucket (job_id ++ "/" ++ lastPathComponent f) = Except.ok ()) :
    RpHandler.upload_files_to_s3 u job_id files bucket ep =
      (Except.ok (files.map (fun f =>
        rstripSlash ep ++ "/" ++ bucket ++ "/" ++ (job_id ++ "/" ++ lastPathComponent f))),
       files.map (fun f => (f, job_id ++ "/" ++ lastPathComponent f))) ∧
    S3.upload_files_to_s3 fsE u job_id files bucket ep =
      (Except.ok (files.map (fun f =>
        ep ++ "/" ++ (job_id ++ "/" ++ lastPathComponent f))),
       files.map (fun f => (f, job_id ++ "/" ++ lastPathComponent f))) := by
  constructor
  · rw [RpHandler.upload_files_to_s3,
      rpUploadS3Loop_all_ok u job_id bucket (rstripSlash ep) files [] [] hok]
    simp
  · rw [S3.upload_files_to_s3,
      s3UploadS3Loop_all_ok fsE u job_id bucket ep files [] [] hex hok]
    simp

/-- C10 amended witness: concrete instantiation on one file. -/
theorem uploadFilesToS3_amended_witness :
    RpHandler.upload_files_to_s3 (fun _ _ _ => Except.ok ()) "j" ["out/a.png"]
        "bkt" "http://e/" =
      (Except.ok (["out/a.png"].map (fun f =>
        rstripSlash "http://e/" ++ "/" ++ "bkt" ++ "/" ++ ("j" ++ "/" ++ lastPathComponent f))),
       ["out/a.png"].map (fun f => (f, "j" ++ "/" ++ lastPathComponent f))) ∧
    S3.upload_files_to_s3 (fun _ => true) (fun _ _ _ => Except.ok ()) "j"
        ["out/a.png"] "bkt" "http://e/" =
      (Except.ok (["out/a.png"].map (fun f =>
        "http://e/" ++ "/" ++ ("j" ++ "/" ++ lastPathComponent f))),
       ["out/a.png"].map (fun f => (f, "j" ++ "/" ++ lastPathComponent f))) :=
  uploadFilesToS3_amended (fun _ _ _ => Except.ok ()) (fun _ => true) "j" "bkt"
    "http://e/" ["out/a.png"] (by decide) (by decide)

/-- C8: for a job that declares a trigger, the trigger's `handle` is never
invoked when the pipeline returns an error result (an `{"error": ...}`
dictionary or a failed upload batch passthrough), and when the pipeline
returns a final result it is a success whose message list was serialized
and passed to `handle` exactly once; the returned result does not contain
`handle`'s response — replacing the trigger backend's return value by any
other successful value leaves the handler's result and call log
unchanged. -/
theorem triggerDispatcher_C8 (ext : Ext) (th : String → Except String String)
    (job : ComfyWorkerJob) (fuel : Nat) (t : SupabaseJobTrigger)
    (ht : job.trigger = some t) :
    (∀ (m : String) (log : List String),
      handler ext th job fuel = some (Except.ok (HandlerRet.errField m), log) →
      log = []) ∧
    (∀ (r : UploadResult) (log : List String),
      handler ext th job fuel = some (Except.ok (HandlerRet.batch r), log) →
      log = []) ∧
    (∀ (ir : JobResultDict) (fl : Bool) (log : List String),
      handler ext th job fuel = some (Except.ok (HandlerRet.final ir fl), log) →
      ∃ msgs, ir.message = PyMsg.list msgs ∧ log = [jsonDumpsList msgs] ∧
        ∀ r2 : String, handler ext (fun _ => Except.ok r2) job fuel =
          some (Except.ok (HandlerRet.final ir fl), log)) := by
  refine ⟨?_, ?_, ?_⟩
  · intro m log h
    rw [handler] at h
    cases hc : handlerCore ext job fuel with
    | none => rw [hc] at h; simp at h
    | some v =>
      rw [hc] at h
      cases v with
      | error f => simp at h
      | ok c =>
        cases c with
        | errField m0 => simp at h; exact h.2
        | batch r0 => simp at h
        | final ir0 =>
          rw [ht] at h
          dsimp only at h
          cases hm : ir0.message with
          | str s0 => rw [hm] at h; simp at h
          | list msgs =>
            rw [hm] at h
            dsimp only at h
            cases hth : th (jsonDumpsList msgs) with
            | error e => rw [hth] at h; simp at h
            | ok rr => rw [hth] at h; simp at h
  · intro r log h
    rw [handler] at h
    cases hc : handlerCore ext job fuel with
    | none => rw [hc] at h; simp at h
    | some v =>
      rw [hc] at h
      cases v with
      | error f => simp at h
      | ok c =>
        cases c with
        | errField m0 => simp at h
        | batch r0 => simp at h; exact h.2
        | final ir0 =>
          rw [ht] at h
          dsimp only at h
          cases hm : ir0.message with
          | str s0 => rw [hm] at h; simp at h
          | list msgs =>
            rw [hm] at h
            dsimp only at h
            cases hth : th (jsonDumpsList msgs) with
            | error e => rw [hth] at h; simp at h
            | ok rr => rw [hth] at h; simp at h
  · intro ir fl log h
    rw [handler] at h
    cases hc : handlerCore ext job fuel with
    | none => rw [hc] at h; simp at h
    | some v =>
      rw [hc] at h
      cases v with
      | error f => simp at h
      | ok c =>
        cases c with
        | errField m0 => simp at h
        | batch r0 => simp at h
        | final ir0 =>
          rw [ht] at h
          dsimp only at h
          cases hm : ir0.message with
          | str s0 => rw [hm] at h; simp at h
          | list msgs =>
            rw [hm] at h
            dsimp only at h
            cases hth : th (jsonDumpsList msgs) with
            | error e => rw [hth] at h; simp at h
            | ok rr =>
              rw [hth] at h
              simp only [Option.some.injEq, Prod.mk.injEq, Except.ok.injEq,
                HandlerRet.final.injEq] at h
              obtain ⟨⟨hir, hfl⟩, hlog⟩ := h
              refine ⟨msgs, ?_, ?_, ?_⟩
              · rw [← hir, hm]
              · exact hlog.symm
              · intro r2
                rw [handler, hc]
                dsimp only
                rw [ht]
                dsimp only
                rw [hm]
                dsimp only
                rw [hir, hfl, hlog]

/-- C8 witness: on a concrete successful run with a declared trigger, the
handler's result is the success final dictionary, `handle` was called
exactly once with the serialized message list, and swapping the trigger
backend's return value leaves the result unchanged. -/
theorem triggerDispatcher_C8_witness :
    ∃ msgs, (⟨"success", PyMsg.list ["QUJD"]⟩ : JobResultDict).message =
        PyMsg.list msgs ∧
      (["[\"QUJD\"]"] : List String) = [jsonDumpsList msgs] ∧
      ∀ r2 : String, handler ext8 (fun _ => Except.ok r2) job8 1 =
        some (Except.ok (HandlerRet.final ⟨"success", PyMsg.list ["QUJD"]⟩ false),
          ["[\"QUJD\"]"]) :=
  (triggerDispatcher_C8 ext8 (fun _ => Except.ok "resp") job8 1 trigger8
    (by rfl)).2.2 ⟨"success", PyMsg.list ["QUJD"]⟩ false ["[\"QUJD\"]"] (by rfl)

/-- C9 counterexample: the live validation path of `handler` does not
accept a JSON-encoded string: with the job's `input` being the JSON
serialization of a valid job payload, `ComfyWorkerJob(id=..., **input)`
raises an uncaught `TypeError` (the `**` unpacking of a `str`), while the
equivalent structured payload validates to the job; the third conjunct
certifies that the string is indeed the serialization of that structured
payload. -/
theorem inputValidator_json_string_counterexample :
    handler_validate (PyObj.dict [("id", PyObj.str "j"), ("input", PyObj.str jsonStr9)]) =
      Except.error "TypeError: argument after ** must be a mapping" ∧
    handler_validate (PyObj.dict [("id", PyObj.str "j"), ("input", PyObj.dict jobInputDict9)]) =
      Except.ok (Except.ok ⟨"j", PyObj.dict [("3", PyObj.dict [])], Option.none,
        Option.none, Option.none, Option.none⟩) ∧
    json_loads jsonStr9 = some (PyObj.dict jobInputDict9) :=
  ⟨rfl, rfl, rfl⟩

/-- C9 amended: the string-acceptance contract holds for the deprecated
`validate_input` only — a payload given as a JSON string is parsed once
and then validated exactly like the equivalent structured payload — while
the live handler path rejects every string-valued `input` with an
uncaught `TypeError`. -/
theorem inputValidator_amended (s : String) (d : List (String × PyObj))
    (hparse : json_loads s = some (PyObj.dict d)) :
    validate_input (some (PyObj.str s)) = validate_input (some (PyObj.dict d)) ∧
    ∀ (idv : PyObj) (inp : String),
      handler_validate (PyObj.dict [("id", idv), ("input", PyObj.str inp)]) =
        Except.error "TypeError: argument after ** must be a mapping" := by
  constructor
  · have hL : validate_input (some (PyObj.str s)) =
        (match json_loads s with
         | some j => validate_input_body j
         | Option.none => Except.ok (Option.none, some "Invalid JSON format in input")) :=
      rfl
    rw [hL, hparse]
    rfl
  · intro idv inp
    rfl

/-- C9 amended witness: instantiation at the concrete serialized job. -/
theorem inputValidator_amended_witness :
    validate_input (some (PyObj.str jsonStr9)) =
      validate_input (some (PyObj.dict jobInputDict9)) ∧
    ∀ (idv : PyObj) (inp : String),
      handler_validate (PyObj.dict [("id", idv), ("input", PyObj.str inp)]) =
        Except.error "TypeError: argument after ** must be a mapping" :=
  inputValidator_amended jsonStr9 jobInputDict9 (by rfl)

end RWC
